import Mathlib

/-!
FailGuard AI: the browser-side form controller and result renderer.

A shallow embedding of `static/js/main.js`.  JavaScript numbers are IEEE-754
doubles; the only operations the script applies to them are `isNaN` and the
comparisons `<` and `>`, which are exact on the real value of a double.  A
number is therefore modelled as NaN, one of the two infinities, or a finite
rational value (every finite double is a rational; `-0` and `+0` compare
alike and are both the rational `0`).
-/

namespace FailGuard

/-! ## JavaScript numbers -/

/-- A JavaScript number: NaN, +Infinity, -Infinity or a finite value. -/
inductive JSNum where
  | nan
  | posInf
  | negInf
  | fin (q : ℚ)
  deriving DecidableEq

namespace JSNum

/-- The global `isNaN` on a number. -/
def isNaN : JSNum → Bool
  | nan => true
  | _ => false

/-- Whether the number is finite (`Number.isFinite`). -/
def isFinite : JSNum → Bool
  | fin _ => true
  | _ => false

/-- The relational operator `a < b` on numbers: false as soon as one operand
is NaN. -/
def lt : JSNum → JSNum → Bool
  | nan, _ => false
  | _, nan => false
  | posInf, _ => false
  | _, negInf => false
  | negInf, _ => true
  | _, posInf => true
  | fin a, fin b => decide (a < b)

/-- The relational operator `a > b`, which JavaScript evaluates as `b < a`. -/
def gt (a b : JSNum) : Bool := lt b a

/-- The number literal `0`. -/
def zero : JSNum := fin 0

/-- The number literal `1`. -/
def one : JSNum := fin 1

end JSNum

/-! ## Objects with numeric properties -/

/-- The own enumerable string-keyed properties of an object whose values are
numbers, in insertion order: what `Object.entries` returns. -/
abbrev JSRecord := List (String × JSNum)

/-- Property read `data.key`: the value of the property, `none` standing for
`undefined` when the object has no such property. -/
def getProp (data : JSRecord) (key : String) : Option JSNum :=
  match data with
  | [] => none
  | (k, v) :: rest => if k = key then some v else getProp rest key

/-- The comparison `x < b` where `x` is the result of a property read:
`undefined` converts to NaN, so the comparison is false. -/
def propLt (x : Option JSNum) (b : JSNum) : Bool :=
  match x with
  | none => false
  | some a => JSNum.lt a b

/-- The comparison `x > b` where `x` is the result of a property read. -/
def propGt (x : Option JSNum) (b : JSNum) : Bool :=
  match x with
  | none => false
  | some a => JSNum.gt a b

/-- The `for ... of Object.entries(data)` loop of `validateInput`: `false`
when some iteration executes `return false`, `true` when the loop runs to
its end. -/
def validateEntries : JSRecord → Bool
  | [] => true
  | (_, value) :: rest =>
    if JSNum.isNaN value || JSNum.lt value JSNum.zero then false
    else validateEntries rest

/-- The function `validateInput(data)`. -/
def validateInput (data : JSRecord) : Bool :=
  if validateEntries data = false then false
  else if propLt (getProp data "num_developers") JSNum.one then false
  else if propGt (getProp data "lcom") JSNum.one then false
  else true

/-- The eight numeric fields of a prediction request. -/
structure PredictionRequest where
  loc : JSNum
  wmc : JSNum
  rfc : JSNum
  cbo : JSNum
  lcom : JSNum
  code_churn : JSNum
  num_developers : JSNum
  past_defects : JSNum
  deriving DecidableEq

/-- The object literal built in `handleFormSubmit`, keys in source order. -/
def PredictionRequest.toRecord (r : PredictionRequest) : JSRecord :=
  [("loc", r.loc), ("wmc", r.wmc), ("rfc", r.rfc), ("cbo", r.cbo),
   ("lcom", r.lcom), ("code_churn", r.code_churn),
   ("num_developers", r.num_developers), ("past_defects", r.past_defects)]

/-- The values of the eight fields. -/
def PredictionRequest.values (r : PredictionRequest) : List JSNum :=
  [r.loc, r.wmc, r.rfc, r.cbo, r.lcom, r.code_churn, r.num_developers, r.past_defects]

/-! ## `parseFloat` and form data -/

/-- The entries of a `FormData` object: (name, value) pairs in document order,
the values being the strings of the form controls. -/
abbrev FormData := List (String × String)

/-- The method `formData.get(name)`: the first value of that name, `none`
standing for `null` when the form has no such entry. -/
def FormData.get (formData : FormData) (name : String) : Option String :=
  match formData with
  | [] => none
  | (k, v) :: rest => if k = name then some v else FormData.get rest name

/-- The characters removed by `TrimString`: WhiteSpace and LineTerminator. -/
def isStrWhiteSpaceChar (c : Char) : Bool :=
  let n := c.toNat
  n = 0x09 || n = 0x0A || n = 0x0B || n = 0x0C || n = 0x0D || n = 0x20 ||
  n = 0xA0 || n = 0x1680 || (0x2000 ≤ n && n ≤ 0x200A) || n = 0x2028 ||
  n = 0x2029 || n = 0x202F || n = 0x205F || n = 0x3000 || n = 0xFEFF

/-- The value of a sequence of decimal digits. -/
def digitsToNat (ds : List Char) : Nat :=
  ds.foldl (fun n c => 10 * n + (c.toNat - 48)) 0

/-- Bit length with explicit fuel: the number of binary digits of `n`. -/
def bitLengthAux : Nat → Nat → Nat
  | 0, _ => 0
  | fuel + 1, n => if n = 0 then 0 else 1 + bitLengthAux fuel (n / 2)

/-- The number of binary digits of `n` (`0` for `n = 0`). -/
def bitLength (n : Nat) : Nat := bitLengthAux n n

/-- The fraction `num / den` divided by `2 ^ e`, as a numerator and a
denominator. -/
def scaleByPow2 (num den : Nat) (e : Int) : Nat × Nat :=
  if 0 ≤ e then (num, den * 2 ^ e.toNat) else (num * 2 ^ (-e).toNat, den)

/-- The integer part of the base-2 logarithm of `num / den`, both positive. -/
def floorLog2 (num den : Nat) : Int :=
  let k0 : Int := (bitLength num : Int) - (bitLength den : Int)
  let nd := scaleByPow2 num den k0
  if nd.2 ≤ nd.1 then k0 else k0 - 1

/-- The integer nearest to `n / d`, ties going to the even one. -/
def roundHalfEven (n d : Nat) : Nat :=
  let q := n / d
  let r := n % d
  if 2 * r < d then q
  else if d < 2 * r then q + 1
  else if q % 2 = 0 then q else q + 1

/-- The double nearest to `± num / den` (round to nearest, ties to even),
overflowing to an infinity: the Number value for a mathematical value. -/
def roundToDouble (neg : Bool) (num den : Nat) : JSNum :=
  if num = 0 then JSNum.fin 0
  else
    let k := floorLog2 num den
    let e : Int := max (k - 52) (-1074)
    let nd := scaleByPow2 num den e
    let m := roundHalfEven nd.1 nd.2
    if 1025 ≤ (bitLength m : Int) + e then (if neg then JSNum.negInf else JSNum.posInf)
    else
      let mag : Nat := m * 2 ^ e.toNat
      JSNum.fin (mkRat (if neg then -(mag : Int) else (mag : Int)) (2 ^ (-e).toNat))

/-- The exponent part `e±ddd` at the head of the input, `0` when the input
does not start with a complete exponent part. -/
def parseExponent (cs : List Char) : Int :=
  match cs with
  | [] => 0
  | c :: rest =>
    if c = 'e' || c = 'E' then
      match rest with
      | '-' :: r =>
        let ds := r.takeWhile Char.isDigit
        if ds = [] then 0 else -(digitsToNat ds : Int)
      | '+' :: r => (digitsToNat (r.takeWhile Char.isDigit) : Int)
      | r => (digitsToNat (r.takeWhile Char.isDigit) : Int)
    else 0

/-- The unsigned part of a `StrDecimalLiteral` at the head of the input:
`Infinity`, or digits with an optional fraction and exponent; NaN when the
input starts with neither. -/
def parseUnsigned (neg : Bool) (cs : List Char) : JSNum :=
  if "Infinity".toList.isPrefixOf cs then (if neg then JSNum.negInf else JSNum.posInf)
  else
    let ip := cs.takeWhile Char.isDigit
    let r1 := cs.dropWhile Char.isDigit
    let fp := match r1 with
      | '.' :: r => r.takeWhile Char.isDigit
      | _ => []
    let r2 := match r1 with
      | '.' :: r => r.dropWhile Char.isDigit
      | _ => r1
    if ip = [] ∧ fp = [] then JSNum.nan
    else
      let n := digitsToNat (ip ++ fp)
      let e10 : Int := parseExponent r2 - (fp.length : Int)
      if 0 ≤ e10 then roundToDouble neg (n * 10 ^ e10.toNat) 1
      else roundToDouble neg n (10 ^ (-e10).toNat)

/-- The global `parseFloat(string)` applied to the result of
`formData.get`: `null` converts to the string `"null"`; leading white space
is dropped and the longest prefix that is a decimal literal is converted. -/
def parseFloat (string : Option String) : JSNum :=
  let inputString := match string with
    | none => "null"
    | some s => s
  let trimmed := inputString.toList.dropWhile isStrWhiteSpaceChar
  match trimmed with
  | '-' :: r => parseUnsigned true r
  | '+' :: r => parseUnsigned false r
  | r => parseUnsigned false r

/-! ## Values, response bodies and host conversions -/

/-- A JavaScript value as far as the script inspects one: the primitives, and
an object or array the script never looks into, named by a reference. -/
inductive JSVal where
  | undefined
  | null
  | bool (b : Bool)
  | num (n : JSNum)
  | str (s : String)
  | object (ref : Nat)
  deriving DecidableEq

namespace JSVal

/-- The conversion `ToBoolean`, applied by `if (v)`, `!v` and `v || w`. -/
def truthy : JSVal → Bool
  | undefined => false
  | null => false
  | bool b => b
  | num JSNum.nan => false
  | num (JSNum.fin q) => decide (q ≠ 0)
  | num _ => true
  | str s => decide (s ≠ "")
  | object _ => true

/-- The operator `a || b`. -/
def or (a b : JSVal) : JSVal := if a.truthy then a else b

/-- The strict comparison `v === 'literal'` against a string literal. -/
def strictEqStr (v : JSVal) (literal : String) : Bool :=
  match v with
  | str s => decide (s = literal)
  | _ => false

end JSVal

/-- A value whose properties the script reads: an object with its
properties in insertion order, or any other value (a primitive, `null`, an
array) standing where an object is expected. -/
inductive JSData where
  | record (fields : List (String × JSVal))
  | atom (v : JSVal)
  deriving DecidableEq

namespace JSData

/-- Whether a property read on the value throws a `TypeError`: it does on
`null` and `undefined`. -/
def isNullish : JSData → Bool
  | atom JSVal.null => true
  | atom JSVal.undefined => true
  | _ => false

/-- Lookup of a property in a list of properties. -/
def lookup (fields : List (String × JSVal)) (key : String) : JSVal :=
  match fields with
  | [] => JSVal.undefined
  | (k, v) :: rest => if k = key then v else lookup rest key

/-- Property read `d.key` on a value that is not nullish: the property of an
object, `undefined` when it has none of that name; none of the names the
script reads is a property of a primitive or an array. -/
def get (d : JSData) (key : String) : JSVal :=
  match d with
  | record fields => lookup fields key
  | atom _ => JSVal.undefined

end JSData

/-- The object literal `data` of `handleFormSubmit` as a value. -/
def PredictionRequest.toData (r : PredictionRequest) : JSData :=
  JSData.record (r.toRecord.map (fun kv => (kv.1, JSVal.num kv.2)))

/-- The string conversions of the host that the script calls and whose
result it never inspects. -/
structure Builtins where
  /-- The conversion `Number::toString`. -/
  numberToString : JSNum → String
  /-- The conversion `ToString` of an object or array. -/
  objectToString : Nat → String
  /-- The function `JSON.stringify`. -/
  jsonStringify : JSData → String

/-- The conversion `ToString`, applied by template literals and by
`sessionStorage.setItem`. -/
def Builtins.toStr (B : Builtins) : JSVal → String
  | JSVal.undefined => "undefined"
  | JSVal.null => "null"
  | JSVal.bool true => "true"
  | JSVal.bool false => "false"
  | JSVal.num n => B.numberToString n
  | JSVal.str s => s
  | JSVal.object ref => B.objectToString ref

/-! ## The document tree and the recommendation renderer -/

/-- A sequence of sibling nodes of the document tree, each element carrying
its tag name, its `id`, the class names of its `className` and its children;
`next` is the rest of the sibling sequence. -/
inductive Dom where
  | nil
  | text (content : String) (next : Dom)
  | elem (tag : String) (id : String) (classes : List String) (children : Dom) (next : Dom)
  deriving DecidableEq

/-- A simple selector: a predicate on the tag, id and classes of an element. -/
abbrev Selector := String → String → List String → Bool

/-- The type selector `main`. -/
def selMain : Selector := fun tag _ _ => decide (tag = "main")

/-- The class selector `.recommendations`. -/
def selRecommendations : Selector := fun _ _ classes => decide ("recommendations" ∈ classes)

/-- The id selector `#recommendationsContent`. -/
def selContent : Selector := fun _ id _ => decide (id = "recommendationsContent")

namespace Dom

/-- Concatenation of two sibling sequences; `appendChild(node)` appends the
one-node sequence to the children. -/
def append : Dom → Dom → Dom
  | nil, ys => ys
  | text s next, ys => text s (append next ys)
  | elem t i c ch next, ys => elem t i c ch (append next ys)

/-- The number of elements of the tree that match the selector. -/
def count (p : Selector) : Dom → Nat
  | nil => 0
  | text _ next => count p next
  | elem t i c ch next => (if p t i c then 1 else 0) + count p ch + count p next

/-- The method `querySelector`: the children of the first element, in
document order, that matches the selector; `none` for `null`. -/
def querySelector (p : Selector) : Dom → Option Dom
  | nil => none
  | text _ next => querySelector p next
  | elem t i c ch next =>
    if p t i c then some ch
    else match querySelector p ch with
      | some found => some found
      | none => querySelector p next

/-- The tree after a mutation of the element that `querySelector` returns:
its children become `f children`.  The tree is unchanged when no element
matches. -/
def modifyFirst (p : Selector) (f : Dom → Dom) : Dom → Dom
  | nil => nil
  | text s next => text s (modifyFirst p f next)
  | elem t i c ch next =>
    if p t i c then elem t i c (f ch) next
    else match querySelector p ch with
      | some _ => elem t i c (modifyFirst p f ch) next
      | none => elem t i c ch (modifyFirst p f next)

end Dom

/-- The list `recommendations` selected by the `if`/`else if`/`else` chain of
`displayRecommendations`. -/
def recommendationsFor (riskLevel : JSVal) : List String :=
  if riskLevel.strictEqStr "HIGH" then
    ["🔴 Perform thorough code review before deployment",
     "🔴 Increase test coverage for this module",
     "🔴 Consider refactoring to reduce complexity",
     "🔴 Schedule security audit and penetration testing",
     "🔴 Plan additional debugging and QA time",
     "🔴 Prioritize this module for immediate attention"]
  else if riskLevel.strictEqStr "MEDIUM" then
    ["🟡 Standard code review recommended",
     "🟡 Ensure adequate test coverage is present",
     "🟡 Monitor during initial deployment phase",
     "🟡 Consider minor refactoring if feasible",
     "🟡 Implement runtime monitoring and logging",
     "🟡 Have rollback plan ready"]
  else
    ["🟢 Standard QA process sufficient",
     "🟢 Proceed with normal code review",
     "🟢 Maintain current test coverage levels",
     "🟢 Low risk for deployment",
     "🟢 Continue monitoring for performance issues",
     "🟢 Safe to include in sprint deliverable"]

/-- The string `html` of `displayRecommendations`: one
`recommendation-item` division for each entry, joined without separator. -/
def recommendationsHtml (recommendations : List String) : String :=
  String.join (recommendations.map
    (fun rec => "<div class=\"recommendation-item\">" ++ rec ++ "</div>"))

/-- The nodes that assigning `recommendationsHtml recommendations` to an
`innerHTML` produces: one division of class `recommendation-item` with a
text child for each entry (no entry of the three lists holds markup). -/
def recommendationNodes : List String → Dom
  | [] => Dom.nil
  | rec :: rest =>
    Dom.elem "div" "" ["recommendation-item"] (Dom.text rec Dom.nil) (recommendationNodes rest)

/-- The content slot `<div id="recommendationsContent">` holding the items. -/
def contentSlot (items : Dom) : Dom :=
  Dom.elem "div" "recommendationsContent" [] items Dom.nil

/-- The section that `displayRecommendations` creates when the document has
none: class `recommendations`, a heading and the content slot. -/
def newSection (items : Dom) : Dom :=
  Dom.elem "section" "" ["recommendations"]
    (Dom.elem "h3" "" [] (Dom.text "📋 Recommendations" Dom.nil) (contentSlot items))
    Dom.nil

/-- The mutation of the children of an existing recommendations section:
the content slot found by `querySelector('#recommendationsContent')` gets
the items; when there is none a new division is given the id, appended to
the section and filled. -/
def fillSection (items : Dom) (children : Dom) : Dom :=
  match children.querySelector selContent with
  | some _ => children.modifyFirst selContent (fun _ => items)
  | none => children.append (contentSlot items)

set_option linter.unusedVariables false in
/-- The function `displayRecommendations(riskLevel, probability)` on the
document tree; `none` when it throws, which it does, before any mutation,
when the document has neither a recommendations section nor a `main`. -/
def displayRecommendations (riskLevel probability : JSVal) (document : Dom) : Option Dom :=
  let items := recommendationNodes (recommendationsFor riskLevel)
  match document.querySelector selRecommendations with
  | some _ => some (document.modifyFirst selRecommendations (fillSection items))
  | none =>
    match document.querySelector selMain with
    | some _ => some (document.modifyFirst selMain (fun children => children.append (newSection items)))
    | none => none

/-! ## The page and the form controller -/

/-- The submit control `.btn-submit`. -/
structure Button where
  innerHTML : String
  disabled : Bool
  deriving DecidableEq

/-- An effect of the script on its host, in the order of occurrence. -/
inductive Effect where
  | alert (message : String)
  | fetch (url method contentType body : String)
  | consoleError (label error : String)
  | setItem (key value : String)
  | navigate (href : String)
  | scrollIntoView (elementId behavior : String)
  deriving DecidableEq

/-- The state of the page the script works on.  The elements the script
looks up by id or class (`predictionForm`, `.btn-submit`, `resultContent`,
`resultSection`) are those of the page markup; the markup written into the
result container is kept as source text, and `document` is the tree the
recommendation renderer queries. -/
structure Page where
  /-- The entries of `new FormData(predictionForm)`. -/
  formData : FormData
  submitBtn : Button
  /-- The `innerHTML` of `#resultContent`. -/
  resultContent : String
  /-- The `style.display` of `#resultSection`. -/
  resultDisplay : String
  sessionStorage : List (String × String)
  /-- The value of `window.location.href`. -/
  location : String
  /-- Whether `event.preventDefault()` was called. -/
  defaultPrevented : Bool
  document : Dom
  log : List Effect
  deriving DecidableEq

/-- The method `sessionStorage.setItem(key, value)`. -/
def setItem (storage : List (String × String)) (key value : String) : List (String × String) :=
  match storage with
  | [] => [(key, value)]
  | (k, v) :: rest => if k = key then (k, value) :: rest else (k, v) :: setItem rest key value

/-- The method `sessionStorage.getItem(key)`. -/
def getItem (storage : List (String × String)) (key : String) : Option String :=
  match storage with
  | [] => none
  | (k, v) :: rest => if k = key then some v else getItem rest key

/-- The markup of the error box before the message. -/
def errorBoxHead : String :=
  "\n        <div class=\"error-box\">\n            <p><strong>❌ Error:</strong> "

/-- The markup of the error box after the message. -/
def errorBoxTail : String := "</p>\n        </div>\n    "

/-- The function `showError(message)`. -/
def showError (message : String) (page : Page) : Page :=
  { page with
    resultContent := errorBoxHead ++ message ++ errorBoxTail
    resultDisplay := "block"
    log := page.log ++ [Effect.scrollIntoView "resultSection" "smooth"] }

/-- What the awaited network call of one submission turns out to be. -/
inductive FetchOutcome where
  /-- The promise of `fetch` rejects: the server cannot be reached. -/
  | rejected (error : String)
  /-- A response arrives and `response.json()` rejects: the body is no JSON. -/
  | invalidJson (error : String)
  /-- A response arrives and its body parses to `result`. -/
  | json (result : JSData)
  deriving DecidableEq

/-- The object literal `data` of `handleFormSubmit`: each field is
`parseFloat(formData.get(name))`. -/
def readForm (formData : FormData) : PredictionRequest :=
  { loc := parseFloat (formData.get "loc")
    wmc := parseFloat (formData.get "wmc")
    rfc := parseFloat (formData.get "rfc")
    cbo := parseFloat (formData.get "cbo")
    lcom := parseFloat (formData.get "lcom")
    code_churn := parseFloat (formData.get "code_churn")
    num_developers := parseFloat (formData.get "num_developers")
    past_defects := parseFloat (formData.get "past_defects") }

/-- The label the `catch` block writes into the submit control. -/
def defaultLabel : String := "<span class=\"btn-text\">🔍 Analyze Module Risk</span>"

/-- The label shown while the request is in flight. -/
def loadingLabel : String := "<span class=\"btn-text\">⏳ Analyzing...</span>"

/-- The alert text of a rejected submission. -/
def invalidAlert : String := "Please fill in all fields with valid numbers."

/-- The message `showError` gets in the `catch` block. -/
def connectMessage : String := "Failed to connect to server. Make sure Flask app is running."

/-- The `catch (error)` block of `handleFormSubmit`. -/
def catchBlock (error : String) (page : Page) : Page :=
  let page := { page with log := page.log ++ [Effect.consoleError "Error:" error] }
  let page := showError connectMessage page
  { page with submitBtn := { innerHTML := defaultLabel, disabled := false } }

/-- The function `handleFormSubmit(event)` run to completion, the awaited
network call turning out as `net`. -/
def handleFormSubmit (B : Builtins) (net : FetchOutcome) (page : Page) : Page :=
  let page := { page with defaultPrevented := true }
  let data := readForm page.formData
  if validateInput data.toRecord = false then
    { page with log := page.log ++ [Effect.alert invalidAlert] }
  else
    let originalText := page.submitBtn.innerHTML
    let page := { page with submitBtn := { innerHTML := loadingLabel, disabled := true } }
    let page := { page with
      log := page.log ++
        [Effect.fetch "/api/predict" "POST" "application/json" (B.jsonStringify data.toData)] }
    match net with
    | FetchOutcome.rejected error => catchBlock error page
    | FetchOutcome.invalidJson error => catchBlock error page
    | FetchOutcome.json result =>
      let page := { page with submitBtn := { innerHTML := originalText, disabled := false } }
      if result.isNullish then catchBlock "TypeError" page
      else if (result.get "success").truthy then
        let page := { page with
          sessionStorage := setItem page.sessionStorage "lastPrediction" (B.jsonStringify result)
          log := page.log ++ [Effect.setItem "lastPrediction" (B.jsonStringify result)] }
        let page := { page with
          sessionStorage :=
            setItem page.sessionStorage "lastPredictionId" (B.toStr (result.get "prediction_id"))
          log := page.log ++
            [Effect.setItem "lastPredictionId" (B.toStr (result.get "prediction_id"))] }
        { page with location := "/dashboard", log := page.log ++ [Effect.navigate "/dashboard"] }
      else
        showError (B.toStr ((result.get "error").or (JSVal.str "Prediction failed"))) page

/-! ## The result renderer -/

/-- The expression `riskEmoji` of `displayResult`. -/
def riskEmoji (riskLevel : JSVal) : String :=
  if riskLevel.strictEqStr "HIGH" then "⚠️"
  else if riskLevel.strictEqStr "MEDIUM" then "⚡"
  else "✅"

/-- The template literal `resultHTML` of `displayResult`, for a `result` and
an `inputData` that are not nullish. -/
def resultHTML (B : Builtins) (result inputData : JSData) : String :=
  let riskColor := B.toStr (result.get "risk_color")
  let riskEmoji := riskEmoji (result.get "risk_level")
  String.join [
    "\n",
    "        <div class=\"result-card\" style=\"background-color: ",
    riskColor,
    "20; border-left: 6px solid ",
    riskColor,
    ";\">\n",
    "            <div class=\"result-header\">\n",
    "                <span class=\"risk-emoji\">",
    riskEmoji,
    "</span>\n",
    "                <div class=\"result-title\">\n",
    "                    <h2>Risk Level: ",
    B.toStr (result.get "risk_level"),
    "</h2>\n",
    "                    <p class=\"result-subtitle\">Module Failure Prediction</p>\n",
    "                </div>\n",
    "            </div>\n",
    "\n",
    "            <div class=\"result-metrics\">\n",
    "                <div class=\"metric-item\">\n",
    "                    <div class=\"metric-label\">Failure Probability</div>\n",
    "                    <div class=\"metric-widget\">\n",
    "                        <div class=\"progress-bar\">\n",
    "                            <div class=\"progress-fill\" style=\"width: ",
    B.toStr (result.get "probability"),
    "%; background-color: ",
    riskColor,
    ";\"></div>\n",
    "                        </div>\n",
    "                        <div class=\"metric-value\">",
    B.toStr (result.get "probability"),
    "%</div>\n",
    "                    </div>\n",
    "                </div>\n",
    "\n",
    "                <div class=\"metric-item\">\n",
    "                    <div class=\"metric-label\">Model Confidence</div>\n",
    "                    <div class=\"metric-value\">",
    B.toStr (result.get "confidence"),
    "%</div>\n",
    "                </div>\n",
    "\n",
    "                <div class=\"metric-item\">\n",
    "                    <div class=\"metric-label\">Prediction Status</div>\n",
    "                    <div class=\"metric-value\">",
    B.toStr (result.get "prediction"),
    "</div>\n",
    "                </div>\n",
    "            </div>\n",
    "        </div>\n",
    "\n",
    "        <div class=\"input-summary\">\n",
    "            <h3>Input Module Metrics</h3>\n",
    "            <div class=\"metrics-table\">\n",
    "                <div class=\"metric-row\">\n",
    "                    <span class=\"metric-key\">Lines of Code (LOC):</span>\n",
    "                    <span class=\"metric-val\">",
    B.toStr (inputData.get "loc"),
    "</span>\n",
    "                </div>\n",
    "                <div class=\"metric-row\">\n",
    "                    <span class=\"metric-key\">Weighted Methods per Class (WMC):</span>\n",
    "                    <span class=\"metric-val\">",
    B.toStr (inputData.get "wmc"),
    "</span>\n",
    "                </div>\n",
    "                <div class=\"metric-row\">\n",
    "                    <span class=\"metric-key\">Response for a Class (RFC):</span>\n",
    "                    <span class=\"metric-val\">",
    B.toStr (inputData.get "rfc"),
    "</span>\n",
    "                </div>\n",
    "                <div class=\"metric-row\">\n",
    "                    <span class=\"metric-key\">Coupling Between Objects (CBO):</span>\n",
    "                    <span class=\"metric-val\">",
    B.toStr (inputData.get "cbo"),
    "</span>\n",
    "                </div>\n",
    "                <div class=\"metric-row\">\n",
    "                    <span class=\"metric-key\">Lack of Cohesion (LCOM):</span>\n",
    "                    <span class=\"metric-val\">",
    B.toStr (inputData.get "lcom"),
    "</span>\n",
    "                </div>\n",
    "                <div class=\"metric-row\">\n",
    "                    <span class=\"metric-key\">Code Churn:</span>\n",
    "                    <span class=\"metric-val\">",
    B.toStr (inputData.get "code_churn"),
    "</span>\n",
    "                </div>\n",
    "                <div class=\"metric-row\">\n",
    "                    <span class=\"metric-key\">Number of Developers:</span>\n",
    "                    <span class=\"metric-val\">",
    B.toStr (inputData.get "num_developers"),
    "</span>\n",
    "                </div>\n",
    "                <div class=\"metric-row\">\n",
    "                    <span class=\"metric-key\">Past Defects:</span>\n",
    "                    <span class=\"metric-val\">",
    B.toStr (inputData.get "past_defects"),
    "</span>\n",
    "                </div>\n",
    "            </div>\n",
    "        </div>\n",
    "    "
  ]

/-- How a function that may throw ends: normally, or by an exception, in
either case with the state it has reached. -/
inductive Completion where
  | normal (page : Page)
  | throw (page : Page)
  deriving DecidableEq

/-- The state a completion ends with. -/
def Completion.page : Completion → Page
  | normal page => page
  | throw page => page

/-- The function `displayResult(result, inputData)`. -/
def displayResult (B : Builtins) (result inputData : JSData) (page : Page) : Completion :=
  if result.isNullish || inputData.isNullish then Completion.throw page
  else
    let page := { page with
      resultContent := resultHTML B result inputData
      resultDisplay := "block" }
    match displayRecommendations (result.get "risk_level") (result.get "probability")
        page.document with
    | none => Completion.throw page
    | some document =>
      let page := { page with
        document := document
        log := page.log ++ [Effect.scrollIntoView "resultSection" "smooth"] }
      Completion.normal { page with
        sessionStorage := setItem page.sessionStorage "lastPrediction" (B.jsonStringify result)
        log := page.log ++ [Effect.setItem "lastPrediction" (B.jsonStringify result)] }

/-! ## Inputs for evaluation -/

/-- The double nearest to the decimal `1.0001`. -/
def double_1_0001 : JSNum := JSNum.fin (mkRat 4504049987333233 (2 ^ 52))

/-- The request of the example data: 450, 14, 22, 7, 0.55, 12, 4, 3. -/
def exampleRequest : PredictionRequest :=
  { loc := JSNum.fin 450, wmc := JSNum.fin 14, rfc := JSNum.fin 22, cbo := JSNum.fin 7,
    lcom := JSNum.fin (mkRat 2476979795053773 (2 ^ 52)), code_churn := JSNum.fin 12,
    num_developers := JSNum.fin 4, past_defects := JSNum.fin 3 }

/-- The request of the example data with `loc` set to `+Infinity`. -/
def infinityRequest : PredictionRequest := { exampleRequest with loc := JSNum.posInf }

/-- The form entries of the example data with `Infinity` typed into `loc`. -/
def infinityForm : FormData :=
  [("loc", "Infinity"), ("wmc", "14"), ("rfc", "22"), ("cbo", "7"), ("lcom", "0.55"),
   ("code_churn", "12"), ("num_developers", "4"), ("past_defects", "3")]

/-- The keys of the object literal `data`, in source order. -/
def fieldNames : List String :=
  ["loc", "wmc", "rfc", "cbo", "lcom", "code_churn", "num_developers", "past_defects"]

/-- The value of the field `name` of a request, NaN for any other name. -/
def PredictionRequest.field (r : PredictionRequest) (name : String) : JSNum :=
  match getProp r.toRecord name with
  | some v => v
  | none => JSNum.nan

/-- A record without a `num_developers` key. -/
def recordWithoutDevelopers : JSRecord :=
  [("loc", JSNum.fin 450), ("wmc", JSNum.fin 14), ("rfc", JSNum.fin 22), ("cbo", JSNum.fin 7),
   ("lcom", JSNum.fin 1), ("code_churn", JSNum.fin 12), ("past_defects", JSNum.fin 3)]

/-- An interpretation of `Number::toString` for evaluating the script at
concrete inputs: NaN, the infinities and the integers print as JavaScript
prints them, any other number as the fraction it is. -/
def sampleNumberToString : JSNum → String
  | JSNum.nan => "NaN"
  | JSNum.posInf => "Infinity"
  | JSNum.negInf => "-Infinity"
  | JSNum.fin q =>
    if q.den = 1 then toString q.num else toString q.num ++ "/" ++ toString q.den

/-- An interpretation of `JSON.stringify` on a value without nesting. -/
def sampleJsonValue : JSVal → String
  | JSVal.undefined => "null"
  | JSVal.null => "null"
  | JSVal.bool true => "true"
  | JSVal.bool false => "false"
  | JSVal.num n => if n.isFinite then sampleNumberToString n else "null"
  | JSVal.str s => "\"" ++ s ++ "\""
  | JSVal.object _ => "\x7b\x7d"

/-- An interpretation of the host conversions, for evaluating the script at
concrete inputs; the theorems hold for every interpretation. -/
def sampleBuiltins : Builtins :=
  { numberToString := sampleNumberToString
    objectToString := fun _ => "[object Object]"
    jsonStringify := fun d =>
      match d with
      | JSData.record fields =>
        "\x7b" ++ String.intercalate ","
          (fields.map (fun kv => "\"" ++ kv.1 ++ "\":" ++ sampleJsonValue kv.2)) ++ "\x7d"
      | JSData.atom v => sampleJsonValue v }

/-- The form entries of the example data. -/
def exampleForm : FormData :=
  [("loc", "450"), ("wmc", "14"), ("rfc", "22"), ("cbo", "7"), ("lcom", "0.55"),
   ("code_churn", "12"), ("num_developers", "4"), ("past_defects", "3")]

/-- A document with a `main` element and no recommendations section. -/
def sampleDocument : Dom :=
  Dom.elem "header" "" [] (Dom.text "FailGuard AI" Dom.nil)
    (Dom.elem "main" "" ["container"]
      (Dom.elem "section" "resultSection" ["result-section"] Dom.nil Dom.nil)
      Dom.nil)

/-- A page holding the example form, before any submission. -/
def samplePage : Page :=
  { formData := exampleForm
    submitBtn := { innerHTML := "Predict", disabled := false }
    resultContent := ""
    resultDisplay := "none"
    sessionStorage := [("theme", "dark")]
    location := "/predict"
    defaultPrevented := false
    document := sampleDocument
    log := [] }

/-- The successful response of the specification example. -/
def sampleSuccess : JSData :=
  JSData.record [("success", JSVal.bool true), ("risk_level", JSVal.str "MEDIUM"),
    ("probability", JSVal.num (JSNum.fin 42)), ("confidence", JSVal.num (JSNum.fin 88)),
    ("prediction", JSVal.str "At Risk"), ("risk_color", JSVal.str "#eab308"),
    ("prediction_id", JSVal.str "abc123")]

/-- The failure response of the specification example. -/
def sampleFailure : JSData :=
  JSData.record [("success", JSVal.bool false), ("error", JSVal.str "model unavailable")]

/-- A failure response whose error string is empty. -/
def emptyErrorFailure : JSData :=
  JSData.record [("success", JSVal.bool false), ("error", JSVal.str "")]

/-- The example page with `-5` typed into the `loc` field. -/
def negativePage : Page :=
  { samplePage with
    formData := [("loc", "-5"), ("wmc", "14"), ("rfc", "22"), ("cbo", "7"), ("lcom", "0.55"),
      ("code_churn", "12"), ("num_developers", "4"), ("past_defects", "3")] }

/-! ## Input validation -/

theorem validateEntries_eq_true_iff (data : JSRecord) :
    validateEntries data = true ↔
      ∀ kv ∈ data, JSNum.isNaN kv.2 = false ∧ JSNum.lt kv.2 JSNum.zero = false := by
  induction data with
  | nil => simp [validateEntries]
  | cons kv rest ih =>
    obtain ⟨k, v⟩ := kv
    by_cases h : (JSNum.isNaN v || JSNum.lt v JSNum.zero) = true
    · have h2 : ¬ (JSNum.isNaN v = false ∧ JSNum.lt v JSNum.zero = false) := by
        intro hc
        simp [hc.1, hc.2] at h
      simp [validateEntries, h, h2]
    · have h2 : JSNum.isNaN v = false ∧ JSNum.lt v JSNum.zero = false := by
        simpa using h
      simp [validateEntries, h, h2, ih]

theorem validateInput_eq_true_iff (data : JSRecord) :
    validateInput data = true ↔
      validateEntries data = true ∧
      propLt (getProp data "num_developers") JSNum.one = false ∧
      propGt (getProp data "lcom") JSNum.one = false := by
  unfold validateInput
  cases validateEntries data <;>
    cases propLt (getProp data "num_developers") JSNum.one <;>
    cases propGt (getProp data "lcom") JSNum.one <;> simp

theorem getProp_num_developers (r : PredictionRequest) :
    getProp r.toRecord "num_developers" = some r.num_developers := by
  simp [PredictionRequest.toRecord, getProp]

theorem getProp_lcom (r : PredictionRequest) :
    getProp r.toRecord "lcom" = some r.lcom := by
  simp [PredictionRequest.toRecord, getProp]

theorem validateEntries_toRecord (r : PredictionRequest) :
    validateEntries r.toRecord = true ↔
      ∀ v ∈ r.values, JSNum.isNaN v = false ∧ JSNum.lt v JSNum.zero = false := by
  rw [validateEntries_eq_true_iff]
  simp [PredictionRequest.toRecord, PredictionRequest.values]

theorem validateInput_toRecord (r : PredictionRequest) :
    validateInput r.toRecord = true ↔
      (∀ v ∈ r.values, JSNum.isNaN v = false ∧ JSNum.lt v JSNum.zero = false) ∧
      JSNum.lt r.num_developers JSNum.one = false ∧
      JSNum.gt r.lcom JSNum.one = false := by
  rw [validateInput_eq_true_iff, validateEntries_toRecord, getProp_num_developers, getProp_lcom]
  simp [propLt, propGt]

/-- C1: `validateInput` returns false exactly when some field is NaN or
negative, or `num_developers < 1`, or `lcom > 1`; and in a request that is
otherwise valid, `num_developers = 0` is rejected, `num_developers = 1`
accepted, `lcom = 1.0` accepted and `lcom = 1.0001` rejected. -/
theorem validateInput_rejects_iff (r : PredictionRequest) :
    (validateInput r.toRecord = false ↔
      ((∃ v ∈ r.values, JSNum.isNaN v = true ∨ JSNum.lt v JSNum.zero = true) ∨
        JSNum.lt r.num_developers JSNum.one = true ∨
        JSNum.gt r.lcom JSNum.one = true)) ∧
    (validateInput r.toRecord = true →
      validateInput { r with num_developers := JSNum.fin 0 }.toRecord = false ∧
      validateInput { r with num_developers := JSNum.fin 1 }.toRecord = true ∧
      validateInput { r with lcom := JSNum.fin 1 }.toRecord = true ∧
      validateInput { r with lcom := double_1_0001 }.toRecord = false) := by
  constructor
  · rw [← Bool.not_eq_true, validateInput_toRecord]
    constructor
    · intro h
      by_contra hc
      push_neg at hc
      apply h
      refine ⟨fun v hv => ?_, ?_, ?_⟩
      · have := hc.1 v hv
        simpa using this
      · simpa using hc.2.1
      · simpa using hc.2.2
    · rintro (⟨v, hv, h⟩ | h | h) hc
      · have := hc.1 v hv
        rcases h with h | h <;> simp [this.1, this.2] at h
      · simp [hc.2.1] at h
      · simp [hc.2.2] at h
  · intro h
    rw [validateInput_toRecord] at h
    obtain ⟨hv, hd, hl⟩ := h
    simp only [PredictionRequest.values, List.mem_cons, List.mem_singleton, forall_eq_or_imp,
      forall_eq, List.not_mem_nil, false_implies, implies_true, and_true] at hv
    obtain ⟨h1, h2, h3, h4, h5, h6, h7, h8⟩ := hv
    refine ⟨?_, ?_, ?_, ?_⟩
    · rw [← Bool.not_eq_true, validateInput_toRecord]
      intro hc
      have e : JSNum.lt (JSNum.fin 0) JSNum.one = true := by decide
      have := hc.2.1
      simp only [e] at this
      exact Bool.noConfusion this
    · rw [validateInput_toRecord]
      have e1 : JSNum.isNaN (JSNum.fin 1) = false := rfl
      have e2 : JSNum.lt (JSNum.fin 1) JSNum.zero = false := by decide
      have e3 : JSNum.lt (JSNum.fin 1) JSNum.one = false := by decide
      simp [PredictionRequest.values, h1, h2, h3, h4, h5, h6, h8, hl, e1, e2, e3]
    · rw [validateInput_toRecord]
      have e1 : JSNum.isNaN (JSNum.fin 1) = false := rfl
      have e2 : JSNum.lt (JSNum.fin 1) JSNum.zero = false := by decide
      have e3 : JSNum.gt (JSNum.fin 1) JSNum.one = false := by decide
      simp [PredictionRequest.values, h1, h2, h3, h4, h6, h7, h8, hd, e1, e2, e3]
    · rw [← Bool.not_eq_true, validateInput_toRecord]
      intro hc
      have e : JSNum.gt double_1_0001 JSNum.one = true := by decide
      have := hc.2.2
      simp only [e] at this
      exact Bool.noConfusion this

/-- The instance of C1 at the example request. -/
theorem validateInput_rejects_iff_witness :
    validateInput exampleRequest.toRecord = true ∧
    validateInput { exampleRequest with num_developers := JSNum.fin 0 }.toRecord = false ∧
    validateInput { exampleRequest with num_developers := JSNum.fin 1 }.toRecord = true ∧
    validateInput { exampleRequest with lcom := JSNum.fin 1 }.toRecord = true ∧
    validateInput { exampleRequest with lcom := double_1_0001 }.toRecord = false :=
  ⟨by decide, (validateInput_rejects_iff exampleRequest).2 (by decide)⟩

theorem JSNum.nonneg_of_checks (v : JSNum) (h1 : JSNum.isNaN v = false)
    (h2 : JSNum.lt v JSNum.zero = false) :
    v = JSNum.posInf ∨ ∃ q : ℚ, v = JSNum.fin q ∧ 0 ≤ q := by
  cases v with
  | nan => simp [JSNum.isNaN] at h1
  | posInf => exact Or.inl rfl
  | negInf => simp [JSNum.lt, JSNum.zero] at h2
  | fin q =>
    right
    refine ⟨q, rfl, ?_⟩
    simpa [JSNum.lt, JSNum.zero] using h2

/-- C3, as stated, fails: the request whose `loc` is `+Infinity` is accepted
by `validateInput` although that field is not finite, and it is the request
`handleFormSubmit` builds when `Infinity` is typed into the `loc` field. -/
theorem validateInput_accepts_infinite_loc :
    validateInput infinityRequest.toRecord = true ∧
    JSNum.isFinite infinityRequest.loc = false ∧
    readForm infinityForm = infinityRequest := by
  decide

/-- C3, amended: every request that `validateInput` accepts has each of its
eight fields either `+Infinity` or a finite number that is not negative
(never NaN, never `-Infinity`), has a finite `lcom` between 0 and 1, and has
`num_developers` equal to `+Infinity` or finite and at least 1. -/
theorem validateInput_accepted_fields (r : PredictionRequest)
    (h : validateInput r.toRecord = true) :
    (∀ v ∈ r.values, v = JSNum.posInf ∨ ∃ q : ℚ, v = JSNum.fin q ∧ 0 ≤ q) ∧
    (∃ q : ℚ, r.lcom = JSNum.fin q ∧ 0 ≤ q ∧ q ≤ 1) ∧
    (r.num_developers = JSNum.posInf ∨ ∃ q : ℚ, r.num_developers = JSNum.fin q ∧ 1 ≤ q) := by
  rw [validateInput_toRecord] at h
  obtain ⟨hv, hd, hl⟩ := h
  have hall : ∀ v ∈ r.values, v = JSNum.posInf ∨ ∃ q : ℚ, v = JSNum.fin q ∧ 0 ≤ q :=
    fun v hv2 => JSNum.nonneg_of_checks v (hv v hv2).1 (hv v hv2).2
  refine ⟨hall, ?_, ?_⟩
  · have hmem : r.lcom ∈ r.values := by simp [PredictionRequest.values]
    rcases hall _ hmem with h1 | ⟨q, hq, hq0⟩
    · rw [h1] at hl
      simp [JSNum.gt, JSNum.lt, JSNum.one] at hl
    · refine ⟨q, hq, hq0, ?_⟩
      rw [hq] at hl
      simpa [JSNum.gt, JSNum.lt, JSNum.one] using hl
  · have hmem : r.num_developers ∈ r.values := by simp [PredictionRequest.values]
    rcases hall _ hmem with h1 | ⟨q, hq, _⟩
    · exact Or.inl h1
    · right
      refine ⟨q, hq, ?_⟩
      rw [hq] at hd
      simpa [JSNum.lt, JSNum.one] using hd

/-- The amended C3 at the request whose `loc` is `+Infinity`. -/
theorem validateInput_accepted_fields_witness :
    validateInput infinityRequest.toRecord = true ∧
    (∀ v ∈ infinityRequest.values, v = JSNum.posInf ∨ ∃ q : ℚ, v = JSNum.fin q ∧ 0 ≤ q) ∧
    (∃ q : ℚ, infinityRequest.lcom = JSNum.fin q ∧ 0 ≤ q ∧ q ≤ 1) ∧
    (infinityRequest.num_developers = JSNum.posInf ∨
      ∃ q : ℚ, infinityRequest.num_developers = JSNum.fin q ∧ 1 ≤ q) :=
  ⟨by decide, validateInput_accepted_fields infinityRequest (by decide)⟩

theorem parseFloat_null : parseFloat none = JSNum.nan := by decide

theorem validateInput_of_isNaN (r : PredictionRequest) (v : JSNum) (hv : v ∈ r.values)
    (h : JSNum.isNaN v = true) : validateInput r.toRecord = false := by
  rw [← Bool.not_eq_true, validateInput_toRecord]
  intro hc
  have := (hc.1 v hv).1
  rw [h] at this
  exact Bool.noConfusion this

theorem validateInput_of_negative (r : PredictionRequest) (v : JSNum) (hv : v ∈ r.values)
    (h : JSNum.lt v JSNum.zero = true) : validateInput r.toRecord = false := by
  rw [← Bool.not_eq_true, validateInput_toRecord]
  intro hc
  have := (hc.1 v hv).2
  rw [h] at this
  exact Bool.noConfusion this

theorem field_readForm (formData : FormData) (name : String) (h : name ∈ fieldNames) :
    (readForm formData).field name = parseFloat (formData.get name) := by
  simp only [fieldNames, List.mem_cons, List.mem_singleton, List.not_mem_nil, or_false] at h
  rcases h with h | h | h | h | h | h | h | h <;> subst h <;>
    simp [PredictionRequest.field, PredictionRequest.toRecord, getProp, readForm]

theorem field_mem_values (r : PredictionRequest) (name : String) (h : name ∈ fieldNames) :
    r.field name ∈ r.values := by
  simp only [fieldNames, List.mem_cons, List.mem_singleton, List.not_mem_nil, or_false] at h
  rcases h with h | h | h | h | h | h | h | h <;> subst h <;>
    simp [PredictionRequest.field, PredictionRequest.toRecord, getProp, PredictionRequest.values]

/-- C10: `validateInput` checks only the keys present in its argument: a
record that lacks the `num_developers` key or the `lcom` key, whose present
values are neither NaN nor negative and pass the range check that remains, is
accepted; a field missing from the form is rejected because the object built
by `handleFormSubmit` always has the eight keys and `parseFloat` of the
absent value is NaN. -/
theorem validateInput_missing_key (data : JSRecord)
    (hfields : ∀ kv ∈ data, JSNum.isNaN kv.2 = false ∧ JSNum.lt kv.2 JSNum.zero = false)
    (hmissing : getProp data "num_developers" = none ∨ getProp data "lcom" = none)
    (hdev : ∀ v, getProp data "num_developers" = some v → JSNum.lt v JSNum.one = false)
    (hlcom : ∀ v, getProp data "lcom" = some v → JSNum.gt v JSNum.one = false) :
    validateInput data = true ∧
    ∀ formData : FormData,
      (readForm formData).toRecord.map Prod.fst = fieldNames ∧
      ∀ name ∈ fieldNames, formData.get name = none →
        getProp (readForm formData).toRecord name = some JSNum.nan ∧
        validateInput (readForm formData).toRecord = false := by
  constructor
  · rw [validateInput_eq_true_iff, validateEntries_eq_true_iff]
    rcases hmissing with hm | hm
    · refine ⟨hfields, by rw [hm]; rfl, ?_⟩
      cases hl : getProp data "lcom" with
      | none => rfl
      | some v => exact hlcom v hl
    · refine ⟨hfields, ?_, by rw [hm]; rfl⟩
      cases hd : getProp data "num_developers" with
      | none => rfl
      | some v => exact hdev v hd
  · intro formData
    refine ⟨rfl, ?_⟩
    intro name hname hnone
    have hf := field_readForm formData name hname
    rw [hnone, parseFloat_null] at hf
    constructor
    · simp only [fieldNames, List.mem_cons, List.mem_singleton, List.not_mem_nil,
        or_false] at hname
      rcases hname with h | h | h | h | h | h | h | h <;> subst h <;>
        simp [PredictionRequest.toRecord, getProp, readForm, hnone, parseFloat_null]
    · apply validateInput_of_isNaN _ _ (field_mem_values _ name hname)
      rw [hf]
      rfl

/-- C10 at a record without the `num_developers` key: it is accepted. -/
theorem validateInput_missing_key_witness :
    getProp recordWithoutDevelopers "num_developers" = none ∧
    validateInput recordWithoutDevelopers = true :=
  ⟨by decide,
    (validateInput_missing_key recordWithoutDevelopers (by decide) (Or.inl (by decide))
      (by decide) (by decide)).1⟩

/-! ## The form controller -/

theorem handleFormSubmit_of_invalid (B : Builtins) (net : FetchOutcome) (page : Page)
    (h : validateInput (readForm page.formData).toRecord = false) :
    handleFormSubmit B net page =
      { page with defaultPrevented := true, log := page.log ++ [Effect.alert invalidAlert] } := by
  simp [handleFormSubmit, h, invalidAlert]

theorem validateInput_readForm_of_bad (formData : FormData) (name : String)
    (hname : name ∈ fieldNames)
    (hbad : formData.get name = none ∨
      JSNum.isNaN (parseFloat (formData.get name)) = true ∨
      JSNum.lt (parseFloat (formData.get name)) JSNum.zero = true) :
    validateInput (readForm formData).toRecord = false := by
  have hf := field_readForm formData name hname
  have hm := field_mem_values (readForm formData) name hname
  rcases hbad with h | h | h
  · apply validateInput_of_isNaN _ _ hm
    rw [hf, h, parseFloat_null]
    rfl
  · apply validateInput_of_isNaN _ _ hm
    rw [hf, h]
  · apply validateInput_of_negative _ _ hm
    rw [hf, h]

/-- C2: when one of the eight fields is missing from the form data, parses
to NaN or is negative, `handleFormSubmit` only cancels the default action and
shows the alert: no request is issued, and the submit button, session
storage, location and result container are as they were. -/
theorem handleFormSubmit_rejects_bad_field (B : Builtins) (net : FetchOutcome) (page : Page)
    (name : String) (hname : name ∈ fieldNames)
    (hbad : page.formData.get name = none ∨
      JSNum.isNaN (parseFloat (page.formData.get name)) = true ∨
      JSNum.lt (parseFloat (page.formData.get name)) JSNum.zero = true) :
    handleFormSubmit B net page =
      { page with defaultPrevented := true, log := page.log ++ [Effect.alert invalidAlert] } ∧
    (handleFormSubmit B net page).log = page.log ++ [Effect.alert invalidAlert] ∧
    (handleFormSubmit B net page).submitBtn = page.submitBtn ∧
    (handleFormSubmit B net page).sessionStorage = page.sessionStorage ∧
    (handleFormSubmit B net page).location = page.location ∧
    (handleFormSubmit B net page).resultContent = page.resultContent := by
  have h := handleFormSubmit_of_invalid B net page
    (validateInput_readForm_of_bad page.formData name hname hbad)
  rw [h]
  exact ⟨rfl, rfl, rfl, rfl, rfl, rfl⟩

/-- C2 at the page whose `loc` field holds `-5`, the network call being one
that would succeed. -/
theorem handleFormSubmit_rejects_bad_field_witness :
    JSNum.lt (parseFloat (negativePage.formData.get "loc")) JSNum.zero = true ∧
    (handleFormSubmit sampleBuiltins (FetchOutcome.json sampleSuccess) negativePage).log =
      [Effect.alert invalidAlert] ∧
    (handleFormSubmit sampleBuiltins (FetchOutcome.json sampleSuccess) negativePage).submitBtn =
      negativePage.submitBtn :=
  ⟨by decide,
    (handleFormSubmit_rejects_bad_field sampleBuiltins (FetchOutcome.json sampleSuccess)
      negativePage "loc" (by decide) (Or.inr (Or.inr (by decide)))).2.1,
    (handleFormSubmit_rejects_bad_field sampleBuiltins (FetchOutcome.json sampleSuccess)
      negativePage "loc" (by decide) (Or.inr (Or.inr (by decide)))).2.2.1⟩

theorem handleFormSubmit_of_catch (B : Builtins) (net : FetchOutcome) (page : Page)
    (h : validateInput (readForm page.formData).toRecord = true)
    (hnet : ∀ result, net = FetchOutcome.json result → result.isNullish = true) :
    ∃ error, handleFormSubmit B net page =
      { page with
        defaultPrevented := true
        submitBtn := { innerHTML := defaultLabel, disabled := false }
        resultContent := errorBoxHead ++ connectMessage ++ errorBoxTail
        resultDisplay := "block"
        log := page.log ++
          [Effect.fetch "/api/predict" "POST" "application/json"
            (B.jsonStringify (readForm page.formData).toData),
           Effect.consoleError "Error:" error,
           Effect.scrollIntoView "resultSection" "smooth"] } := by
  cases net with
  | rejected error =>
    exact ⟨error, by simp [handleFormSubmit, h, catchBlock, showError, connectMessage]⟩
  | invalidJson error =>
    exact ⟨error, by simp [handleFormSubmit, h, catchBlock, showError, connectMessage]⟩
  | json result =>
    have hn := hnet result rfl
    exact ⟨"TypeError", by simp [handleFormSubmit, h, hn, catchBlock, showError, connectMessage]⟩

theorem isNullish_of_truthy (result : JSData) (key : String)
    (h : (result.get key).truthy = true) : result.isNullish = false := by
  cases result with
  | record fields => rfl
  | atom v => simp [JSData.get, JSVal.truthy] at h

theorem handleFormSubmit_of_success (B : Builtins) (page : Page) (result : JSData)
    (h : validateInput (readForm page.formData).toRecord = true)
    (hs : (result.get "success").truthy = true) :
    handleFormSubmit B (FetchOutcome.json result) page =
      { page with
        defaultPrevented := true
        submitBtn := { innerHTML := page.submitBtn.innerHTML, disabled := false }
        sessionStorage :=
          setItem (setItem page.sessionStorage "lastPrediction" (B.jsonStringify result))
            "lastPredictionId" (B.toStr (result.get "prediction_id"))
        location := "/dashboard"
        log := page.log ++
          [Effect.fetch "/api/predict" "POST" "application/json"
            (B.jsonStringify (readForm page.formData).toData),
           Effect.setItem "lastPrediction" (B.jsonStringify result),
           Effect.setItem "lastPredictionId" (B.toStr (result.get "prediction_id")),
           Effect.navigate "/dashboard"] } := by
  have hn := isNullish_of_truthy result "success" hs
  simp [handleFormSubmit, h, hn, hs]

theorem handleFormSubmit_of_failure (B : Builtins) (page : Page) (result : JSData)
    (h : validateInput (readForm page.formData).toRecord = true)
    (hn : result.isNullish = false)
    (hs : (result.get "success").truthy = false) :
    handleFormSubmit B (FetchOutcome.json result) page =
      { page with
        defaultPrevented := true
        submitBtn := { innerHTML := page.submitBtn.innerHTML, disabled := false }
        resultContent := errorBoxHead ++
          B.toStr ((result.get "error").or (JSVal.str "Prediction failed")) ++ errorBoxTail
        resultDisplay := "block"
        log := page.log ++
          [Effect.fetch "/api/predict" "POST" "application/json"
            (B.jsonStringify (readForm page.formData).toData),
           Effect.scrollIntoView "resultSection" "smooth"] } := by
  simp [handleFormSubmit, h, hn, hs, showError]

theorem getItem_setItem_self (storage : List (String × String)) (key value : String) :
    getItem (setItem storage key value) key = some value := by
  induction storage with
  | nil => simp [setItem, getItem]
  | cons kv rest ih =>
    obtain ⟨k, v⟩ := kv
    by_cases hk : k = key
    · simp [setItem, getItem, hk]
    · simp [setItem, getItem, hk, ih]

theorem getItem_setItem_other (storage : List (String × String)) (key value other : String)
    (h : other ≠ key) :
    getItem (setItem storage key value) other = getItem storage other := by
  induction storage with
  | nil =>
    have h2 : ¬ key = other := fun e => h e.symm
    simp [setItem, getItem, h2]
  | cons kv rest ih =>
    obtain ⟨k, v⟩ := kv
    by_cases hk : k = key
    · subst hk
      have hko : ¬ k = other := fun e => h e.symm
      simp [setItem, getItem, hko]
    · by_cases ho : k = other
      · subst ho
        simp [setItem, getItem, hk]
      · simp [setItem, getItem, hk, ho, ih]

/-- C4, as the code has it: after a validated submission the submit control
is enabled again on every path; its label is the one it had before the
submission when a response body that is not `null` arrived (success or
failure response), and it is the fixed label of the `catch` block, whatever
the label was before, when the network call rejects, the body is not JSON
or the body is `null`. -/
theorem handleFormSubmit_button (B : Builtins) (net : FetchOutcome) (page : Page)
    (h : validateInput (readForm page.formData).toRecord = true) :
    (handleFormSubmit B net page).submitBtn.disabled = false ∧
    (∀ result, net = FetchOutcome.json result → result.isNullish = false →
      (handleFormSubmit B net page).submitBtn.innerHTML = page.submitBtn.innerHTML) ∧
    ((∀ result, net = FetchOutcome.json result → result.isNullish = true) →
      (handleFormSubmit B net page).submitBtn.innerHTML = defaultLabel) := by
  refine ⟨?_, ?_, ?_⟩
  · cases net with
    | rejected error => simp [handleFormSubmit, h, catchBlock, showError]
    | invalidJson error => simp [handleFormSubmit, h, catchBlock, showError]
    | json result =>
      by_cases hn : result.isNullish = true
      · simp [handleFormSubmit, h, hn, catchBlock, showError]
      · by_cases hs : (result.get "success").truthy = true
        · simp [handleFormSubmit, h, hn, hs]
        · simp [handleFormSubmit, h, hn, hs, showError]
  · intro result hnet hn
    subst hnet
    by_cases hs : (result.get "success").truthy = true
    · rw [handleFormSubmit_of_success B page result h hs]
    · rw [handleFormSubmit_of_failure B page result h hn (by simpa using hs)]
  · intro hnet
    obtain ⟨error, he⟩ := handleFormSubmit_of_catch B net page h hnet
    rw [he]

/-- C4 at the failing input: the label of the submit control is `Predict`
and the network call rejects; the control ends enabled, and its label is the
fixed one of the `catch` block, not the label it had before. -/
theorem handleFormSubmit_button_witness :
    validateInput (readForm samplePage.formData).toRecord = true ∧
    (handleFormSubmit sampleBuiltins (FetchOutcome.rejected "TypeError: Failed to fetch")
      samplePage).submitBtn.disabled = false ∧
    (handleFormSubmit sampleBuiltins (FetchOutcome.rejected "TypeError: Failed to fetch")
      samplePage).submitBtn.innerHTML = defaultLabel ∧
    defaultLabel ≠ samplePage.submitBtn.innerHTML :=
  ⟨by decide,
    (handleFormSubmit_button sampleBuiltins (FetchOutcome.rejected "TypeError: Failed to fetch")
      samplePage (by decide)).1,
    (handleFormSubmit_button sampleBuiltins (FetchOutcome.rejected "TypeError: Failed to fetch")
      samplePage (by decide)).2.2 (fun _ hnet => FetchOutcome.noConfusion hnet),
    by decide⟩

/-- C5: after a validated submission whose response has a true `success`,
session storage is the former one with `lastPrediction` set to the JSON
serialization of the result and `lastPredictionId` set to its
`prediction_id`, no other key changed; the location is `/dashboard`; the
effects are, in order, the request, the two writes and the navigation; the
result container and the document are as they were. -/
theorem handleFormSubmit_success (B : Builtins) (page : Page) (result : JSData)
    (h : validateInput (readForm page.formData).toRecord = true)
    (hs : (result.get "success").truthy = true) :
    (handleFormSubmit B (FetchOutcome.json result) page).sessionStorage =
      setItem (setItem page.sessionStorage "lastPrediction" (B.jsonStringify result))
        "lastPredictionId" (B.toStr (result.get "prediction_id")) ∧
    getItem (handleFormSubmit B (FetchOutcome.json result) page).sessionStorage
      "lastPrediction" = some (B.jsonStringify result) ∧
    getItem (handleFormSubmit B (FetchOutcome.json result) page).sessionStorage
      "lastPredictionId" = some (B.toStr (result.get "prediction_id")) ∧
    (∀ key, key ≠ "lastPrediction" → key ≠ "lastPredictionId" →
      getItem (handleFormSubmit B (FetchOutcome.json result) page).sessionStorage key =
        getItem page.sessionStorage key) ∧
    (handleFormSubmit B (FetchOutcome.json result) page).location = "/dashboard" ∧
    (handleFormSubmit B (FetchOutcome.json result) page).log = page.log ++
      [Effect.fetch "/api/predict" "POST" "application/json"
        (B.jsonStringify (readForm page.formData).toData),
       Effect.setItem "lastPrediction" (B.jsonStringify result),
       Effect.setItem "lastPredictionId" (B.toStr (result.get "prediction_id")),
       Effect.navigate "/dashboard"] ∧
    (handleFormSubmit B (FetchOutcome.json result) page).resultContent = page.resultContent ∧
    (handleFormSubmit B (FetchOutcome.json result) page).resultDisplay = page.resultDisplay ∧
    (handleFormSubmit B (FetchOutcome.json result) page).document = page.document := by
  rw [handleFormSubmit_of_success B page result h hs]
  refine ⟨rfl, ?_, ?_, ?_, rfl, rfl, rfl, rfl, rfl⟩
  · show getItem (setItem (setItem page.sessionStorage "lastPrediction" _) "lastPredictionId" _)
      "lastPrediction" = _
    rw [getItem_setItem_other _ _ _ _ (by decide), getItem_setItem_self]
  · exact getItem_setItem_self _ _ _
  · intro key h1 h2
    show getItem (setItem (setItem page.sessionStorage "lastPrediction" _) "lastPredictionId" _)
      key = _
    rw [getItem_setItem_other _ _ _ _ h2, getItem_setItem_other _ _ _ _ h1]

/-- C5 at the successful response of the specification example. -/
theorem handleFormSubmit_success_witness :
    validateInput (readForm samplePage.formData).toRecord = true ∧
    (sampleSuccess.get "success").truthy = true ∧
    getItem (handleFormSubmit sampleBuiltins (FetchOutcome.json sampleSuccess)
      samplePage).sessionStorage "lastPredictionId" = some "abc123" ∧
    (handleFormSubmit sampleBuiltins (FetchOutcome.json sampleSuccess) samplePage).location =
      "/dashboard" :=
  ⟨by decide, by decide,
    (handleFormSubmit_success sampleBuiltins samplePage sampleSuccess (by decide)
      (by decide)).2.2.1,
    (handleFormSubmit_success sampleBuiltins samplePage sampleSuccess (by decide)
      (by decide)).2.2.2.2.1⟩

set_option maxRecDepth 8000 in
theorem errorBox_no_metric :
    ¬ ("metric".toList <:+: errorBoxHead.toList) ∧
    ¬ ("metric".toList <:+: errorBoxTail.toList) := by
  decide

set_option maxRecDepth 8000 in
/-- C6, as stated, fails: for the failure response whose `error` is the
empty string the message rendered is the fallback, not the error string the
server supplied. -/
theorem handleFormSubmit_empty_error :
    validateInput (readForm samplePage.formData).toRecord = true ∧
    (emptyErrorFailure.get "success").truthy = false ∧
    emptyErrorFailure.get "error" = JSVal.str "" ∧
    (handleFormSubmit sampleBuiltins (FetchOutcome.json emptyErrorFailure)
      samplePage).resultContent = errorBoxHead ++ "Prediction failed" ++ errorBoxTail ∧
    (handleFormSubmit sampleBuiltins (FetchOutcome.json emptyErrorFailure)
      samplePage).resultContent ≠ errorBoxHead ++ "" ++ errorBoxTail := by
  decide

/-- C6, amended: a validated submission that ends in a failure response or
a transport failure leaves session storage, the location and the document as
they were and renders the error box around the message; the message is the
error string of the response when that string is not empty, the fallback
`Prediction failed` when the `error` field is absent or empty, and the fixed
connectivity hint on a transport failure; the markup around the message
holds no metric. -/
theorem handleFormSubmit_failure (B : Builtins) (net : FetchOutcome) (page : Page)
    (h : validateInput (readForm page.formData).toRecord = true)
    (hfail : ∀ result, net = FetchOutcome.json result → (result.get "success").truthy = false) :
    (handleFormSubmit B net page).sessionStorage = page.sessionStorage ∧
    (handleFormSubmit B net page).location = page.location ∧
    (handleFormSubmit B net page).document = page.document ∧
    (handleFormSubmit B net page).resultDisplay = "block" ∧
    (∃ message,
      (handleFormSubmit B net page).resultContent = errorBoxHead ++ message ++ errorBoxTail ∧
      ((∀ result, net = FetchOutcome.json result → result.isNullish = true) →
        message = connectMessage) ∧
      (∀ result text, net = FetchOutcome.json result → result.isNullish = false →
        result.get "error" = JSVal.str text → text ≠ "" → message = text) ∧
      (∀ result, net = FetchOutcome.json result → result.isNullish = false →
        (result.get "error" = JSVal.undefined ∨ result.get "error" = JSVal.str "") →
        message = "Prediction failed")) ∧
    ¬ ("metric".toList <:+: errorBoxHead.toList) ∧
    ¬ ("metric".toList <:+: errorBoxTail.toList) := by
  by_cases hc : ∀ result, net = FetchOutcome.json result → result.isNullish = true
  · obtain ⟨error, he⟩ := handleFormSubmit_of_catch B net page h hc
    rw [he]
    refine ⟨rfl, rfl, rfl, rfl, ⟨connectMessage, rfl, fun _ => rfl, ?_, ?_⟩,
      errorBox_no_metric.1, errorBox_no_metric.2⟩
    · intro r t e hr
      have := hc r e
      rw [hr] at this
      exact Bool.noConfusion this
    · intro r e hr
      have := hc r e
      rw [hr] at this
      exact Bool.noConfusion this
  · push_neg at hc
    obtain ⟨result, hnet, hn⟩ := hc
    subst hnet
    have hn2 : result.isNullish = false := by simpa using hn
    rw [handleFormSubmit_of_failure B page result h hn2 (hfail result rfl)]
    refine ⟨rfl, rfl, rfl, rfl, ⟨_, rfl, ?_, ?_, ?_⟩,
      errorBox_no_metric.1, errorBox_no_metric.2⟩
    · intro hall
      have := hall result rfl
      rw [hn2] at this
      exact Bool.noConfusion this
    · intro r t e _ ht hne
      cases e
      simp [ht, JSVal.or, JSVal.truthy, hne, Builtins.toStr]
    · intro r e _ ht
      cases e
      rcases ht with ht | ht <;> simp [ht, JSVal.or, JSVal.truthy, Builtins.toStr]

/-- The amended C6 at the failure response of the specification example:
the error box holds the text `model unavailable`. -/
theorem handleFormSubmit_failure_witness :
    validateInput (readForm samplePage.formData).toRecord = true ∧
    (sampleFailure.get "success").truthy = false ∧
    (handleFormSubmit sampleBuiltins (FetchOutcome.json sampleFailure)
      samplePage).sessionStorage = samplePage.sessionStorage ∧
    (handleFormSubmit sampleBuiltins (FetchOutcome.json sampleFailure)
      samplePage).resultContent = errorBoxHead ++ "model unavailable" ++ errorBoxTail :=
  ⟨by decide, by decide,
    (handleFormSubmit_failure sampleBuiltins (FetchOutcome.json sampleFailure) samplePage
      (by decide) (fun r e => by cases e; decide)).1,
    by decide⟩

/-! ## The document tree -/

namespace Dom

theorem count_append (q : Selector) (a b : Dom) :
    count q (append a b) = count q a + count q b := by
  induction a with
  | nil => simp [append, count]
  | text s next ih => simp [append, count, ih]
  | elem t i c ch next _ ihn => simp [append, count, ihn]; omega

theorem querySelector_append_of_none (p : Selector) (a b : Dom)
    (h : querySelector p a = none) :
    querySelector p (append a b) = querySelector p b := by
  induction a with
  | nil => simp [append]
  | text s next ih =>
    simp only [querySelector] at h
    simp [append, querySelector, ih h]
  | elem t i c ch next _ ihn =>
    by_cases hp : p t i c = true
    · simp [querySelector, hp] at h
    · cases hc : querySelector p ch with
      | some found => simp [querySelector, hp, hc] at h
      | none =>
        simp only [querySelector, hp, hc] at h
        simp [append, querySelector, hp, hc, ihn h]

theorem count_eq_zero_of_none (p : Selector) (d : Dom) (h : querySelector p d = none) :
    count p d = 0 := by
  induction d with
  | nil => rfl
  | text s next ih =>
    simp only [querySelector] at h
    simp [count, ih h]
  | elem t i c ch next ihc ihn =>
    by_cases hp : p t i c = true
    · simp [querySelector, hp] at h
    · cases hc : querySelector p ch with
      | some found => simp [querySelector, hp, hc] at h
      | none =>
        simp only [querySelector, hp, hc] at h
        simp [count, hp, ihc hc, ihn h]

theorem count_ge_of_some (p : Selector) (d found : Dom) (h : querySelector p d = some found) :
    1 + count p found ≤ count p d := by
  induction d with
  | nil => simp [querySelector] at h
  | text s next ih =>
    simp only [querySelector] at h
    simp only [count]
    exact ih h
  | elem t i c ch next ihc ihn =>
    by_cases hp : p t i c = true
    · simp only [querySelector, hp, if_true, Option.some.injEq] at h
      subst h
      simp only [count, hp, if_true]
      omega
    · cases hc : querySelector p ch with
      | some x =>
        simp only [querySelector, hp, hc] at h
        simp only [Bool.false_eq_true, if_false, Option.some.injEq] at h
        subst h
        have := ihc hc
        simp only [count]
        omega
      | none =>
        simp only [querySelector, hp, hc] at h
        have := ihn h
        simp only [count]
        omega

theorem modifyFirst_of_none (p : Selector) (f : Dom → Dom) (d : Dom)
    (h : querySelector p d = none) : modifyFirst p f d = d := by
  induction d with
  | nil => rfl
  | text s next ih =>
    simp only [querySelector] at h
    simp [modifyFirst, ih h]
  | elem t i c ch next _ ihn =>
    by_cases hp : p t i c = true
    · simp [querySelector, hp] at h
    · cases hc : querySelector p ch with
      | some found => simp [querySelector, hp, hc] at h
      | none =>
        simp only [querySelector, hp, hc] at h
        simp [modifyFirst, hp, hc, ihn h]

theorem querySelector_modifyFirst (p : Selector) (f : Dom → Dom) (d : Dom) :
    querySelector p (modifyFirst p f d) = (querySelector p d).map f := by
  induction d with
  | nil => rfl
  | text s next ih => simp [modifyFirst, querySelector, ih]
  | elem t i c ch next ihc ihn =>
    by_cases hp : p t i c = true
    · simp [modifyFirst, querySelector, hp]
    · cases hc : querySelector p ch with
      | some found =>
        simp [modifyFirst, querySelector, hp, hc, ihc]
      | none =>
        simp [modifyFirst, querySelector, hp, hc, ihn]

theorem modifyFirst_append_of_none (p : Selector) (f : Dom → Dom) (a b : Dom)
    (h : querySelector p a = none) :
    modifyFirst p f (append a b) = append a (modifyFirst p f b) := by
  induction a with
  | nil => simp [append]
  | text s next ih =>
    simp only [querySelector] at h
    simp [append, modifyFirst, ih h]
  | elem t i c ch next _ ihn =>
    by_cases hp : p t i c = true
    · simp [querySelector, hp] at h
    · cases hc : querySelector p ch with
      | some found => simp [querySelector, hp, hc] at h
      | none =>
        simp only [querySelector, hp, hc] at h
        simp [append, modifyFirst, hp, hc, ihn h]

theorem modifyFirst_modifyFirst (p : Selector) (f g : Dom → Dom) (d : Dom) :
    modifyFirst p g (modifyFirst p f d) = modifyFirst p (fun ch => g (f ch)) d := by
  induction d with
  | nil => rfl
  | text s next ih => simp [modifyFirst, ih]
  | elem t i c ch next ihc ihn =>
    by_cases hp : p t i c = true
    · simp [modifyFirst, hp]
    · cases hc : querySelector p ch with
      | some found =>
        simp [modifyFirst, hp, hc, ihc, querySelector_modifyFirst]
      | none =>
        simp [modifyFirst, hp, hc, ihn]

theorem count_modifyFirst (p q : Selector) (f : Dom → Dom) (d found : Dom)
    (h : querySelector p d = some found) :
    count q (modifyFirst p f d) + count q found = count q d + count q (f found) := by
  induction d with
  | nil => simp [querySelector] at h
  | text s next ih =>
    simp only [querySelector] at h
    simp only [modifyFirst, count]
    exact ih h
  | elem t i c ch next ihc ihn =>
    by_cases hp : p t i c = true
    · simp only [querySelector, hp, if_true, Option.some.injEq] at h
      subst h
      simp only [modifyFirst, hp, if_true, count]
      omega
    · cases hc : querySelector p ch with
      | some x =>
        simp only [querySelector, hp, hc] at h
        simp only [Bool.false_eq_true, if_false, Option.some.injEq] at h
        subst h
        have := ihc hc
        simp only [modifyFirst, hp, hc, count]
        simp only [Bool.false_eq_true, if_false] at *
        omega
      | none =>
        simp only [querySelector, hp, hc] at h
        have := ihn h
        simp only [modifyFirst, hp, hc, count]
        simp only [Bool.false_eq_true, if_false] at *
        omega

end Dom

namespace Dom

theorem not_matches_of_none (q : Selector) (t i : String) (c : List String) (ch next : Dom)
    (h : querySelector q (elem t i c ch next) = none) :
    ¬ q t i c = true ∧ querySelector q ch = none ∧ querySelector q next = none := by
  by_cases hq : q t i c = true
  · simp [querySelector, hq] at h
  · cases hc : querySelector q ch with
    | some found => simp [querySelector, hq, hc] at h
    | none =>
      simp only [querySelector, hq, hc] at h
      exact ⟨hq, rfl, h⟩

theorem querySelector_appendChild (p q : Selector) (n d : Dom) (found : Dom)
    (hq : querySelector q d = none) (hp : querySelector p d = some found) :
    querySelector q (modifyFirst p (fun ch => append ch n) d) = querySelector q n := by
  induction d generalizing found with
  | nil => simp [querySelector] at hp
  | text s next ih =>
    simp only [querySelector] at hp hq
    simp [modifyFirst, querySelector, ih found hq hp]
  | elem t i c ch next ihc ihn =>
    obtain ⟨hq1, hq2, hq3⟩ := not_matches_of_none q t i c ch next hq
    by_cases hpt : p t i c = true
    · have e := querySelector_append_of_none q ch n hq2
      cases hn : querySelector q n with
      | some y => simp [modifyFirst, hpt, querySelector, hq1, e, hn]
      | none => simp [modifyFirst, hpt, querySelector, hq1, e, hn, hq3]
    · cases hc : querySelector p ch with
      | some x =>
        have e := ihc x hq2 hc
        cases hn : querySelector q n with
        | some y => simp [modifyFirst, hpt, hc, querySelector, hq1, e, hn]
        | none => simp [modifyFirst, hpt, hc, querySelector, hq1, e, hn, hq3]
      | none =>
        simp only [querySelector, hpt, hc] at hp
        have e := ihn found hq3 hp
        simp [modifyFirst, hpt, hc, querySelector, hq1, hq2, e]

theorem modifyFirst_appendChild (p q : Selector) (g : Dom → Dom) (n d : Dom)
    (hq : querySelector q d = none) :
    modifyFirst q g (modifyFirst p (fun ch => append ch n) d) =
      modifyFirst p (fun ch => append ch (modifyFirst q g n)) d := by
  induction d with
  | nil => rfl
  | text s next ih =>
    simp only [querySelector] at hq
    simp [modifyFirst, ih hq]
  | elem t i c ch next ihc ihn =>
    obtain ⟨hq1, hq2, hq3⟩ := not_matches_of_none q t i c ch next hq
    by_cases hpt : p t i c = true
    · have e := querySelector_append_of_none q ch n hq2
      cases hn : querySelector q n with
      | some x =>
        simp [modifyFirst, hpt, hq1, e, hn, modifyFirst_append_of_none q g ch n hq2]
      | none =>
        simp [modifyFirst, hpt, hq1, e, hn, modifyFirst_of_none q g next hq3,
          modifyFirst_of_none q g n hn]
    · cases hc : querySelector p ch with
      | some x =>
        have ih1 := ihc hq2
        cases hm : querySelector q (modifyFirst p (fun ch => append ch n) ch) with
        | some y =>
          simp [modifyFirst, hpt, hc, hq1, hm, ih1]
        | none =>
          have e2 := modifyFirst_of_none q g _ hm
          rw [ih1] at e2
          simp [modifyFirst, hpt, hc, hq1, hm, modifyFirst_of_none q g next hq3, e2]
      | none =>
        simp [modifyFirst, hpt, hc, hq1, hq2, ihn hq3]

end Dom

/-! ## The recommendation renderer -/

theorem count_recommendationNodes (q : Selector) (recommendations : List String)
    (h : q "div" "" ["recommendation-item"] = false) :
    Dom.count q (recommendationNodes recommendations) = 0 := by
  induction recommendations with
  | nil => rfl
  | cons rec rest ih => simp [recommendationNodes, Dom.count, h, ih]

theorem fillSection_fillSection (first second children : Dom) :
    fillSection second (fillSection first children) = fillSection second children := by
  cases hc : children.querySelector selContent with
  | some found =>
    have h1 : (children.modifyFirst selContent (fun _ => first)).querySelector selContent =
        some first := by
      rw [Dom.querySelector_modifyFirst, hc]
      rfl
    simp only [fillSection, hc, h1]
    rw [Dom.modifyFirst_modifyFirst]
  | none =>
    have h1 : (children.append (contentSlot first)).querySelector selContent = some first := by
      rw [Dom.querySelector_append_of_none _ _ _ hc]
      simp [contentSlot, Dom.querySelector, selContent]
    simp only [fillSection, hc, h1]
    rw [Dom.modifyFirst_append_of_none _ _ _ _ hc]
    simp [contentSlot, Dom.modifyFirst, selContent]

theorem querySelector_fillSection (items children : Dom) :
    (fillSection items children).querySelector selContent = some items := by
  cases hc : children.querySelector selContent with
  | some found =>
    simp only [fillSection, hc]
    rw [Dom.querySelector_modifyFirst, hc]
    rfl
  | none =>
    simp only [fillSection, hc]
    rw [Dom.querySelector_append_of_none _ _ _ hc]
    simp [contentSlot, Dom.querySelector, selContent]

theorem count_fillSection (q : Selector) (items children : Dom)
    (hslot : q "div" "recommendationsContent" [] = false) (hitems : Dom.count q items = 0)
    (hchildren : Dom.count q children = 0) :
    Dom.count q (fillSection items children) = 0 := by
  cases hc : children.querySelector selContent with
  | some found =>
    simp only [fillSection, hc]
    have := Dom.count_modifyFirst selContent q (fun _ => items) children found hc
    simp only [hitems, hchildren] at this
    omega
  | none =>
    simp only [fillSection, hc]
    rw [Dom.count_append]
    simp [contentSlot, Dom.count, hslot, hitems, hchildren]

theorem count_selContent_fillSection (items children : Dom)
    (hitems : Dom.count selContent items = 0) (hchildren : Dom.count selContent children ≤ 1) :
    Dom.count selContent (fillSection items children) = 1 := by
  cases hc : children.querySelector selContent with
  | some found =>
    simp only [fillSection, hc]
    have h1 := Dom.count_modifyFirst selContent selContent (fun _ => items) children found hc
    have h2 := Dom.count_ge_of_some selContent children found hc
    simp only [hitems] at h1
    omega
  | none =>
    simp only [fillSection, hc]
    rw [Dom.count_append, Dom.count_eq_zero_of_none _ _ hc]
    simp [contentSlot, Dom.count, selContent, hitems]

theorem displayRecommendations_of_section (riskLevel probability : JSVal) (document found : Dom)
    (h : document.querySelector selRecommendations = some found) :
    displayRecommendations riskLevel probability document =
      some (document.modifyFirst selRecommendations
        (fillSection (recommendationNodes (recommendationsFor riskLevel)))) := by
  simp [displayRecommendations, h]

theorem displayRecommendations_of_main (riskLevel probability : JSVal) (document found : Dom)
    (h : document.querySelector selRecommendations = none)
    (hmain : document.querySelector selMain = some found) :
    displayRecommendations riskLevel probability document =
      some (document.modifyFirst selMain (fun children =>
        children.append (newSection (recommendationNodes (recommendationsFor riskLevel))))) := by
  simp [displayRecommendations, h, hmain]

theorem modifyFirst_newSection (first second : Dom) :
    (newSection first).modifyFirst selRecommendations (fillSection second) =
      newSection second := by
  simp [newSection, Dom.modifyFirst, selRecommendations, fillSection, contentSlot,
    Dom.querySelector, selContent]

theorem querySelector_newSection (items : Dom) :
    ∃ children, (newSection items).querySelector selRecommendations = some children ∧
      children.querySelector selContent = some items ∧
      Dom.count selContent children = 1 + Dom.count selContent items := by
  refine ⟨Dom.elem "h3" "" [] (Dom.text "📋 Recommendations" Dom.nil) (contentSlot items),
    by simp [newSection, Dom.querySelector, selRecommendations], ?_, ?_⟩
  · simp [contentSlot, Dom.querySelector, selContent]
  · simp [contentSlot, Dom.count, selContent]

theorem count_newSection (items : Dom) (h : Dom.count selRecommendations items = 0) :
    Dom.count selRecommendations (newSection items) = 1 := by
  simp [newSection, contentSlot, Dom.count, selRecommendations, h]

theorem displayRecommendations_twice (first second p1 p2 : JSVal) (document after : Dom)
    (h : displayRecommendations first p1 document = some after) :
    displayRecommendations second p2 after = displayRecommendations second p2 document := by
  cases hs : document.querySelector selRecommendations with
  | some found =>
    rw [displayRecommendations_of_section first p1 document found hs] at h
    have ha := Option.some.inj h
    subst ha
    have h1 := Dom.querySelector_modifyFirst selRecommendations
      (fillSection (recommendationNodes (recommendationsFor first))) document
    rw [hs] at h1
    rw [displayRecommendations_of_section second p2 _ _ h1,
      displayRecommendations_of_section second p2 document found hs,
      Dom.modifyFirst_modifyFirst]
    simp only [fillSection_fillSection]
  | none =>
    cases hm : document.querySelector selMain with
    | none => simp [displayRecommendations, hs, hm] at h
    | some found =>
      rw [displayRecommendations_of_main first p1 document found hs hm] at h
      have ha := Option.some.inj h
      subst ha
      have h1 := Dom.querySelector_appendChild selMain selRecommendations
        (newSection (recommendationNodes (recommendationsFor first))) document found hs hm
      obtain ⟨children, hc, _⟩ :=
        querySelector_newSection (recommendationNodes (recommendationsFor first))
      rw [hc] at h1
      rw [displayRecommendations_of_section second p2 _ _ h1,
        displayRecommendations_of_main second p2 document found hs hm,
        Dom.modifyFirst_appendChild _ _ _ _ _ hs, modifyFirst_newSection]

theorem displayRecommendations_content (riskLevel probability : JSVal) (document after : Dom)
    (h : displayRecommendations riskLevel probability document = some after) :
    ∃ children, after.querySelector selRecommendations = some children ∧
      children.querySelector selContent =
        some (recommendationNodes (recommendationsFor riskLevel)) := by
  cases hs : document.querySelector selRecommendations with
  | some found =>
    rw [displayRecommendations_of_section riskLevel probability document found hs] at h
    have ha := Option.some.inj h
    subst ha
    refine ⟨fillSection (recommendationNodes (recommendationsFor riskLevel)) found, ?_,
      querySelector_fillSection _ _⟩
    rw [Dom.querySelector_modifyFirst, hs]
    rfl
  | none =>
    cases hm : document.querySelector selMain with
    | none => simp [displayRecommendations, hs, hm] at h
    | some found =>
      rw [displayRecommendations_of_main riskLevel probability document found hs hm] at h
      have ha := Option.some.inj h
      subst ha
      obtain ⟨children, hc, hcontent, _⟩ :=
        querySelector_newSection (recommendationNodes (recommendationsFor riskLevel))
      refine ⟨children, ?_, hcontent⟩
      rw [Dom.querySelector_appendChild selMain selRecommendations _ document found hs hm]
      exact hc

theorem displayRecommendations_counts (riskLevel probability : JSVal) (document after : Dom)
    (hone : Dom.count selRecommendations document ≤ 1)
    (hslot : ∀ children, document.querySelector selRecommendations = some children →
      Dom.count selContent children ≤ 1)
    (h : displayRecommendations riskLevel probability document = some after) :
    Dom.count selRecommendations after = 1 ∧
    ∀ children, after.querySelector selRecommendations = some children →
      Dom.count selContent children = 1 := by
  have hitems1 : Dom.count selRecommendations
      (recommendationNodes (recommendationsFor riskLevel)) = 0 :=
    count_recommendationNodes _ _ (by decide)
  have hitems2 : Dom.count selContent
      (recommendationNodes (recommendationsFor riskLevel)) = 0 :=
    count_recommendationNodes _ _ (by decide)
  cases hs : document.querySelector selRecommendations with
  | some found =>
    rw [displayRecommendations_of_section riskLevel probability document found hs] at h
    have ha := Option.some.inj h
    subst ha
    have hge := Dom.count_ge_of_some selRecommendations document found hs
    have hfound : Dom.count selRecommendations found = 0 := by omega
    have hfill := count_fillSection selRecommendations _ found (by decide) hitems1 hfound
    have hcount := Dom.count_modifyFirst selRecommendations selRecommendations
      (fillSection (recommendationNodes (recommendationsFor riskLevel))) document found hs
    constructor
    · omega
    · intro children hc
      rw [Dom.querySelector_modifyFirst, hs] at hc
      have hc2 := Option.some.inj hc
      subst hc2
      exact count_selContent_fillSection _ _ hitems2 (hslot found hs)
  | none =>
    cases hm : document.querySelector selMain with
    | none => simp [displayRecommendations, hs, hm] at h
    | some found =>
      rw [displayRecommendations_of_main riskLevel probability document found hs hm] at h
      have ha := Option.some.inj h
      subst ha
      have hzero := Dom.count_eq_zero_of_none selRecommendations document hs
      have hcount := Dom.count_modifyFirst selMain selRecommendations
        (fun children => children.append
          (newSection (recommendationNodes (recommendationsFor riskLevel)))) document found hm
      rw [Dom.count_append, count_newSection _ hitems1] at hcount
      constructor
      · omega
      · intro children hc
        rw [Dom.querySelector_appendChild selMain selRecommendations _ document found hs hm]
          at hc
        obtain ⟨children2, hc2, _, hcnt⟩ :=
          querySelector_newSection (recommendationNodes (recommendationsFor riskLevel))
        rw [hc2] at hc
        have hc3 := Option.some.inj hc
        subst hc3
        rw [hcnt, hitems2]

theorem recommendationNodes_tiers (riskLevel : JSVal) :
    (riskLevel = JSVal.str "HIGH" →
      recommendationNodes (recommendationsFor riskLevel) =
        (Dom.elem "div" "" ["recommendation-item"] (Dom.text "🔴 Perform thorough code review before deployment" Dom.nil)
        (Dom.elem "div" "" ["recommendation-item"] (Dom.text "🔴 Increase test coverage for this module" Dom.nil)
        (Dom.elem "div" "" ["recommendation-item"] (Dom.text "🔴 Consider refactoring to reduce complexity" Dom.nil)
        (Dom.elem "div" "" ["recommendation-item"] (Dom.text "🔴 Schedule security audit and penetration testing" Dom.nil)
        (Dom.elem "div" "" ["recommendation-item"] (Dom.text "🔴 Plan additional debugging and QA time" Dom.nil)
        (Dom.elem "div" "" ["recommendation-item"] (Dom.text "🔴 Prioritize this module for immediate attention" Dom.nil)
        Dom.nil))))))) ∧
    (riskLevel = JSVal.str "MEDIUM" →
      recommendationNodes (recommendationsFor riskLevel) =
        (Dom.elem "div" "" ["recommendation-item"] (Dom.text "🟡 Standard code review recommended" Dom.nil)
        (Dom.elem "div" "" ["recommendation-item"] (Dom.text "🟡 Ensure adequate test coverage is present" Dom.nil)
        (Dom.elem "div" "" ["recommendation-item"] (Dom.text "🟡 Monitor during initial deployment phase" Dom.nil)
        (Dom.elem "div" "" ["recommendation-item"] (Dom.text "🟡 Consider minor refactoring if feasible" Dom.nil)
        (Dom.elem "div" "" ["recommendation-item"] (Dom.text "🟡 Implement runtime monitoring and logging" Dom.nil)
        (Dom.elem "div" "" ["recommendation-item"] (Dom.text "🟡 Have rollback plan ready" Dom.nil)
        Dom.nil))))))) ∧
    (riskLevel ≠ JSVal.str "HIGH" → riskLevel ≠ JSVal.str "MEDIUM" →
      recommendationNodes (recommendationsFor riskLevel) =
        (Dom.elem "div" "" ["recommendation-item"] (Dom.text "🟢 Standard QA process sufficient" Dom.nil)
        (Dom.elem "div" "" ["recommendation-item"] (Dom.text "🟢 Proceed with normal code review" Dom.nil)
        (Dom.elem "div" "" ["recommendation-item"] (Dom.text "🟢 Maintain current test coverage levels" Dom.nil)
        (Dom.elem "div" "" ["recommendation-item"] (Dom.text "🟢 Low risk for deployment" Dom.nil)
        (Dom.elem "div" "" ["recommendation-item"] (Dom.text "🟢 Continue monitoring for performance issues" Dom.nil)
        (Dom.elem "div" "" ["recommendation-item"] (Dom.text "🟢 Safe to include in sprint deliverable" Dom.nil)
        Dom.nil))))))) := by
  refine ⟨?_, ?_, ?_⟩
  · intro h
    subst h
    rfl
  · intro h
    subst h
    rfl
  · intro h1 h2
    have e1 : riskLevel.strictEqStr "HIGH" = false := by
      cases riskLevel <;> simp_all [JSVal.strictEqStr]
    have e2 : riskLevel.strictEqStr "MEDIUM" = false := by
      cases riskLevel <;> simp_all [JSVal.strictEqStr]
    simp [recommendationsFor, e1, e2, recommendationNodes]

theorem displayRecommendations_returns (riskLevel probability : JSVal) (document : Dom)
    (hdoc : (document.querySelector selRecommendations).isSome = true ∨
      (document.querySelector selMain).isSome = true) :
    ∃ after, displayRecommendations riskLevel probability document = some after := by
  cases hs : document.querySelector selRecommendations with
  | some found =>
    exact ⟨_, displayRecommendations_of_section riskLevel probability document found hs⟩
  | none =>
    cases hm : document.querySelector selMain with
    | none => simp [hs, hm] at hdoc
    | some found =>
      exact ⟨_, displayRecommendations_of_main riskLevel probability document found hs hm⟩

theorem displayRecommendations_throws (riskLevel probability : JSVal) (document : Dom)
    (hs : document.querySelector selRecommendations = none)
    (hm : document.querySelector selMain = none) :
    displayRecommendations riskLevel probability document = none := by
  simp [displayRecommendations, hs, hm]

/-- C7: the list `displayRecommendations` renders is determined by the risk
level alone.  The selected list is the six strings of the `HIGH` tier, in
order, for `'HIGH'`, the six of the `MEDIUM` tier for `'MEDIUM'`, and the six
of the fallback tier for `'LOW'` and every other value.  In a document that
has a recommendations section or a `main` element the call returns, for any
probability argument the same document, and the content slot of its
recommendations section then holds exactly one `recommendation-item`
division for each string of that tier, in order, and nothing else; in a
document with neither the call throws, whatever the arguments. -/
theorem displayRecommendations_by_risk_level (riskLevel probability other : JSVal)
    (document : Dom) :
    recommendationsFor (JSVal.str "HIGH") =
      ["🔴 Perform thorough code review before deployment",
       "🔴 Increase test coverage for this module",
       "🔴 Consider refactoring to reduce complexity",
       "🔴 Schedule security audit and penetration testing",
       "🔴 Plan additional debugging and QA time",
       "🔴 Prioritize this module for immediate attention"] ∧
    recommendationsFor (JSVal.str "MEDIUM") =
      ["🟡 Standard code review recommended",
       "🟡 Ensure adequate test coverage is present",
       "🟡 Monitor during initial deployment phase",
       "🟡 Consider minor refactoring if feasible",
       "🟡 Implement runtime monitoring and logging",
       "🟡 Have rollback plan ready"] ∧
    (riskLevel ≠ JSVal.str "HIGH" → riskLevel ≠ JSVal.str "MEDIUM" →
      recommendationsFor riskLevel =
        ["🟢 Standard QA process sufficient",
         "🟢 Proceed with normal code review",
         "🟢 Maintain current test coverage levels",
         "🟢 Low risk for deployment",
         "🟢 Continue monitoring for performance issues",
         "🟢 Safe to include in sprint deliverable"]) ∧
    displayRecommendations riskLevel probability document =
      displayRecommendations riskLevel other document ∧
    (document.querySelector selRecommendations = none →
      document.querySelector selMain = none →
      displayRecommendations riskLevel probability document = none) ∧
    ((document.querySelector selRecommendations).isSome = true ∨
        (document.querySelector selMain).isSome = true →
      ∃ after children,
        displayRecommendations riskLevel probability document = some after ∧
        displayRecommendations riskLevel other document = some after ∧
        after.querySelector selRecommendations = some children ∧
        (riskLevel = JSVal.str "HIGH" →
          children.querySelector selContent = some
            (Dom.elem "div" "" ["recommendation-item"] (Dom.text "🔴 Perform thorough code review before deployment" Dom.nil)
            (Dom.elem "div" "" ["recommendation-item"] (Dom.text "🔴 Increase test coverage for this module" Dom.nil)
            (Dom.elem "div" "" ["recommendation-item"] (Dom.text "🔴 Consider refactoring to reduce complexity" Dom.nil)
            (Dom.elem "div" "" ["recommendation-item"] (Dom.text "🔴 Schedule security audit and penetration testing" Dom.nil)
            (Dom.elem "div" "" ["recommendation-item"] (Dom.text "🔴 Plan additional debugging and QA time" Dom.nil)
            (Dom.elem "div" "" ["recommendation-item"] (Dom.text "🔴 Prioritize this module for immediate attention" Dom.nil)
            Dom.nil))))))) ∧
        (riskLevel = JSVal.str "MEDIUM" →
          children.querySelector selContent = some
            (Dom.elem "div" "" ["recommendation-item"] (Dom.text "🟡 Standard code review recommended" Dom.nil)
            (Dom.elem "div" "" ["recommendation-item"] (Dom.text "🟡 Ensure adequate test coverage is present" Dom.nil)
            (Dom.elem "div" "" ["recommendation-item"] (Dom.text "🟡 Monitor during initial deployment phase" Dom.nil)
            (Dom.elem "div" "" ["recommendation-item"] (Dom.text "🟡 Consider minor refactoring if feasible" Dom.nil)
            (Dom.elem "div" "" ["recommendation-item"] (Dom.text "🟡 Implement runtime monitoring and logging" Dom.nil)
            (Dom.elem "div" "" ["recommendation-item"] (Dom.text "🟡 Have rollback plan ready" Dom.nil)
            Dom.nil))))))) ∧
        (riskLevel ≠ JSVal.str "HIGH" → riskLevel ≠ JSVal.str "MEDIUM" →
          children.querySelector selContent = some
            (Dom.elem "div" "" ["recommendation-item"] (Dom.text "🟢 Standard QA process sufficient" Dom.nil)
            (Dom.elem "div" "" ["recommendation-item"] (Dom.text "🟢 Proceed with normal code review" Dom.nil)
            (Dom.elem "div" "" ["recommendation-item"] (Dom.text "🟢 Maintain current test coverage levels" Dom.nil)
            (Dom.elem "div" "" ["recommendation-item"] (Dom.text "🟢 Low risk for deployment" Dom.nil)
            (Dom.elem "div" "" ["recommendation-item"] (Dom.text "🟢 Continue monitoring for performance issues" Dom.nil)
            (Dom.elem "div" "" ["recommendation-item"] (Dom.text "🟢 Safe to include in sprint deliverable" Dom.nil)
            Dom.nil)))))))) := by
  refine ⟨by decide, by decide, ?_, rfl,
    displayRecommendations_throws riskLevel probability document, ?_⟩
  · intro h1 h2
    have e1 : riskLevel.strictEqStr "HIGH" = false := by
      cases riskLevel <;> simp_all [JSVal.strictEqStr]
    have e2 : riskLevel.strictEqStr "MEDIUM" = false := by
      cases riskLevel <;> simp_all [JSVal.strictEqStr]
    simp [recommendationsFor, e1, e2]
  · intro hdoc
    obtain ⟨after, h⟩ := displayRecommendations_returns riskLevel probability document hdoc
    obtain ⟨children, hc, hcontent⟩ :=
      displayRecommendations_content riskLevel probability document after h
    have ht := recommendationNodes_tiers riskLevel
    refine ⟨after, children, h, h, hc, ?_, ?_, ?_⟩
    · intro hl
      rw [hcontent, ht.1 hl]
    · intro hl
      rw [hcontent, ht.2.1 hl]
    · intro h1 h2
      rw [hcontent, ht.2.2 h1 h2]

/-- C7 at the sample document, which has a `main` element and no
recommendations section: the call with `'HIGH'` returns, with either
probability argument, and the content slot of the section it leaves holds
the six `HIGH` items in order. -/
theorem displayRecommendations_by_risk_level_witness :
    (sampleDocument.querySelector selMain).isSome = true ∧
    ∃ after children,
      displayRecommendations (JSVal.str "HIGH") (JSVal.num (JSNum.fin 91)) sampleDocument =
        some after ∧
      displayRecommendations (JSVal.str "HIGH") JSVal.undefined sampleDocument = some after ∧
      after.querySelector selRecommendations = some children ∧
      children.querySelector selContent = some
        (Dom.elem "div" "" ["recommendation-item"] (Dom.text "🔴 Perform thorough code review before deployment" Dom.nil)
        (Dom.elem "div" "" ["recommendation-item"] (Dom.text "🔴 Increase test coverage for this module" Dom.nil)
        (Dom.elem "div" "" ["recommendation-item"] (Dom.text "🔴 Consider refactoring to reduce complexity" Dom.nil)
        (Dom.elem "div" "" ["recommendation-item"] (Dom.text "🔴 Schedule security audit and penetration testing" Dom.nil)
        (Dom.elem "div" "" ["recommendation-item"] (Dom.text "🔴 Plan additional debugging and QA time" Dom.nil)
        (Dom.elem "div" "" ["recommendation-item"] (Dom.text "🔴 Prioritize this module for immediate attention" Dom.nil)
        Dom.nil)))))) :=
  ⟨by decide,
    match (displayRecommendations_by_risk_level (JSVal.str "HIGH") (JSVal.num (JSNum.fin 91))
      JSVal.undefined sampleDocument).2.2.2.2.2 (Or.inr (by decide)) with
    | ⟨after, children, h1, h2, h3, h4, _, _⟩ => ⟨after, children, h1, h2, h3, h4 rfl⟩⟩

/-- C8: in a document with a `main` element, at most one recommendations
section and at most one content slot in it, two calls of
`displayRecommendations` in succession both return, and leave exactly one
recommendations section, holding exactly one content slot; the content of
that slot is one `recommendation-item` division for each string of the tier
of the second call, in order, and nothing of the first call; the document is
the one a single call with the second risk level produces, so a repeated
call with the same risk level changes nothing. -/
theorem displayRecommendations_idempotent (first second p1 p2 : JSVal) (document : Dom)
    (hmain : (document.querySelector selMain).isSome = true)
    (hone : Dom.count selRecommendations document ≤ 1)
    (hslot : ∀ children, document.querySelector selRecommendations = some children →
      Dom.count selContent children ≤ 1) :
    ∃ once twice,
      displayRecommendations first p1 document = some once ∧
      displayRecommendations second p2 once = some twice ∧
      Dom.count selRecommendations twice = 1 ∧
      (∃ children, twice.querySelector selRecommendations = some children ∧
        Dom.count selContent children = 1 ∧
        children.querySelector selContent =
          some (recommendationNodes (recommendationsFor second)) ∧
        (second = JSVal.str "HIGH" →
          children.querySelector selContent = some
            (Dom.elem "div" "" ["recommendation-item"] (Dom.text "🔴 Perform thorough code review before deployment" Dom.nil)
            (Dom.elem "div" "" ["recommendation-item"] (Dom.text "🔴 Increase test coverage for this module" Dom.nil)
            (Dom.elem "div" "" ["recommendation-item"] (Dom.text "🔴 Consider refactoring to reduce complexity" Dom.nil)
            (Dom.elem "div" "" ["recommendation-item"] (Dom.text "🔴 Schedule security audit and penetration testing" Dom.nil)
            (Dom.elem "div" "" ["recommendation-item"] (Dom.text "🔴 Plan additional debugging and QA time" Dom.nil)
            (Dom.elem "div" "" ["recommendation-item"] (Dom.text "🔴 Prioritize this module for immediate attention" Dom.nil)
            Dom.nil))))))) ∧
        (second = JSVal.str "MEDIUM" →
          children.querySelector selContent = some
            (Dom.elem "div" "" ["recommendation-item"] (Dom.text "🟡 Standard code review recommended" Dom.nil)
            (Dom.elem "div" "" ["recommendation-item"] (Dom.text "🟡 Ensure adequate test coverage is present" Dom.nil)
            (Dom.elem "div" "" ["recommendation-item"] (Dom.text "🟡 Monitor during initial deployment phase" Dom.nil)
            (Dom.elem "div" "" ["recommendation-item"] (Dom.text "🟡 Consider minor refactoring if feasible" Dom.nil)
            (Dom.elem "div" "" ["recommendation-item"] (Dom.text "🟡 Implement runtime monitoring and logging" Dom.nil)
            (Dom.elem "div" "" ["recommendation-item"] (Dom.text "🟡 Have rollback plan ready" Dom.nil)
            Dom.nil))))))) ∧
        (second ≠ JSVal.str "HIGH" → second ≠ JSVal.str "MEDIUM" →
          children.querySelector selContent = some
            (Dom.elem "div" "" ["recommendation-item"] (Dom.text "🟢 Standard QA process sufficient" Dom.nil)
            (Dom.elem "div" "" ["recommendation-item"] (Dom.text "🟢 Proceed with normal code review" Dom.nil)
            (Dom.elem "div" "" ["recommendation-item"] (Dom.text "🟢 Maintain current test coverage levels" Dom.nil)
            (Dom.elem "div" "" ["recommendation-item"] (Dom.text "🟢 Low risk for deployment" Dom.nil)
            (Dom.elem "div" "" ["recommendation-item"] (Dom.text "🟢 Continue monitoring for performance issues" Dom.nil)
            (Dom.elem "div" "" ["recommendation-item"] (Dom.text "🟢 Safe to include in sprint deliverable" Dom.nil)
            Dom.nil)))))))) ∧
      displayRecommendations second p2 document = some twice ∧
      (first = second → twice = once) := by
  obtain ⟨once, h1⟩ := displayRecommendations_returns first p1 document (Or.inr hmain)
  obtain ⟨twice, h2⟩ := displayRecommendations_returns second p2 document (Or.inr hmain)
  have h12 := displayRecommendations_twice first second p1 p2 document once h1
  rw [h2] at h12
  have hcounts := displayRecommendations_counts second p2 document twice hone hslot h2
  obtain ⟨children, hc, hcontent⟩ := displayRecommendations_content second p2 document twice h2
  have ht := recommendationNodes_tiers second
  refine ⟨once, twice, h1, h12, hcounts.1,
    ⟨children, hc, hcounts.2 children hc, hcontent, ?_, ?_, ?_⟩, h2, ?_⟩
  · intro hl
    rw [hcontent, ht.1 hl]
  · intro hl
    rw [hcontent, ht.2.1 hl]
  · intro hl1 hl2
    rw [hcontent, ht.2.2 hl1 hl2]
  · intro heq
    subst heq
    have : displayRecommendations first p1 document = displayRecommendations first p2 document :=
      rfl
    rw [h1, h2] at this
    exact (Option.some.inj this).symm

/-- C8 at the sample document, which has a `main` element and no
recommendations section: after a `HIGH` call followed by a `LOW` call there
is one section with one content slot, and the slot holds the six items of
the fallback tier. -/
theorem displayRecommendations_idempotent_witness :
    (sampleDocument.querySelector selMain).isSome = true ∧
    Dom.count selRecommendations sampleDocument ≤ 1 ∧
    ∃ once twice,
      displayRecommendations (JSVal.str "HIGH") (JSVal.num (JSNum.fin 91)) sampleDocument =
        some once ∧
      displayRecommendations (JSVal.str "LOW") (JSVal.num (JSNum.fin 7)) once = some twice ∧
      Dom.count selRecommendations twice = 1 ∧
      (∃ children, twice.querySelector selRecommendations = some children ∧
        Dom.count selContent children = 1 ∧
        children.querySelector selContent = some
          (Dom.elem "div" "" ["recommendation-item"] (Dom.text "🟢 Standard QA process sufficient" Dom.nil)
          (Dom.elem "div" "" ["recommendation-item"] (Dom.text "🟢 Proceed with normal code review" Dom.nil)
          (Dom.elem "div" "" ["recommendation-item"] (Dom.text "🟢 Maintain current test coverage levels" Dom.nil)
          (Dom.elem "div" "" ["recommendation-item"] (Dom.text "🟢 Low risk for deployment" Dom.nil)
          (Dom.elem "div" "" ["recommendation-item"] (Dom.text "🟢 Continue monitoring for performance issues" Dom.nil)
          (Dom.elem "div" "" ["recommendation-item"] (Dom.text "🟢 Safe to include in sprint deliverable" Dom.nil)
          Dom.nil))))))) ∧
      displayRecommendations (JSVal.str "LOW") (JSVal.num (JSNum.fin 7)) sampleDocument =
        some twice :=
  ⟨by decide, by decide,
    match displayRecommendations_idempotent (JSVal.str "HIGH") (JSVal.str "LOW")
      (JSVal.num (JSNum.fin 91)) (JSVal.num (JSNum.fin 7)) sampleDocument (by decide)
      (by decide) (fun children h => by
        have hnone : sampleDocument.querySelector selRecommendations = none := by decide
        rw [hnone] at h
        exact Option.noConfusion h) with
    | ⟨once, twice, h1, h2, h3, ⟨children, h4, h5, _, _, _, h6⟩, h7, _⟩ =>
      ⟨once, twice, h1, h2, h3, ⟨children, h4, h5, h6 (by decide) (by decide)⟩, h7⟩⟩

/-! ## The result renderer -/

theorem foldl_append_eq (l : List String) (init : String) :
    l.foldl (fun r s => r ++ s) init = init ++ l.foldl (fun r s => r ++ s) "" := by
  induction l generalizing init with
  | nil => simp
  | cons s rest ih =>
    simp only [List.foldl_cons]
    rw [ih (init ++ s), ih ("" ++ s)]
    simp [String.append_assoc]

theorem join_cons (s : String) (l : List String) :
    String.join (s :: l) = s ++ String.join l := by
  simp only [String.join, List.foldl_cons]
  rw [foldl_append_eq]
  simp

theorem join_append (a b : List String) :
    String.join (a ++ b) = String.join a ++ String.join b := by
  induction a with
  | nil => simp [String.join]
  | cons s rest ih => simp [join_cons, ih, String.append_assoc]

theorem join_decompose (l : List String) (n : Nat) (a e c : String)
    (h : l.drop n = a :: e :: c :: l.drop (n + 3)) :
    String.join l =
      String.join (l.take n) ++ a ++ e ++ c ++ String.join (l.drop (n + 3)) := by
  conv_lhs => rw [← List.take_append_drop n l, h]
  simp [join_append, join_cons, String.append_assoc]

theorem displayResult_resultContent (B : Builtins) (result inputData : JSData) (page : Page)
    (hr : result.isNullish = false) (hi : inputData.isNullish = false) :
    (displayResult B result inputData page).page.resultContent =
      resultHTML B result inputData := by
  unfold displayResult
  simp only [hr, hi, Bool.or_false, Bool.false_eq_true, if_false]
  cases displayRecommendations (result.get "risk_level") (result.get "probability")
    page.document <;> rfl

/-- C9: the emoji of the result header is the warning glyph for the risk
level `'HIGH'`, the lightning glyph for `'MEDIUM'` and the check glyph for
every other value, an absent one included; `displayResult` writes it inside
the `risk-emoji` span of the markup it puts into the result container. -/
theorem displayResult_emoji (B : Builtins) (result inputData : JSData) (page : Page) :
    riskEmoji (JSVal.str "HIGH") = "⚠️" ∧
    riskEmoji (JSVal.str "MEDIUM") = "⚡" ∧
    riskEmoji (JSVal.str "LOW") = "✅" ∧
    riskEmoji JSVal.undefined = "✅" ∧
    (result.get "risk_level" ≠ JSVal.str "HIGH" → result.get "risk_level" ≠ JSVal.str "MEDIUM" →
      riskEmoji (result.get "risk_level") = "✅") ∧
    (∃ before after, resultHTML B result inputData =
      before ++ "                <span class=\"risk-emoji\">" ++
        riskEmoji (result.get "risk_level") ++ "</span>\n" ++ after) ∧
    (result.isNullish = false → inputData.isNullish = false →
      (displayResult B result inputData page).page.resultContent =
        resultHTML B result inputData) := by
  refine ⟨by decide, by decide, by decide, by decide, ?_, ?_,
    displayResult_resultContent B result inputData page⟩
  · intro h1 h2
    have e1 : (result.get "risk_level").strictEqStr "HIGH" = false := by
      cases hv : result.get "risk_level" <;> simp_all [JSVal.strictEqStr]
    have e2 : (result.get "risk_level").strictEqStr "MEDIUM" = false := by
      cases hv : result.get "risk_level" <;> simp_all [JSVal.strictEqStr]
    simp [riskEmoji, e1, e2]
  · simp only [resultHTML]
    exact ⟨_, _, join_decompose _ 7 _ _ _ rfl⟩

/-- C9 at the successful response of the specification example, whose risk
level is `MEDIUM`, and at a response without a risk level. -/
theorem displayResult_emoji_witness :
    riskEmoji (sampleSuccess.get "risk_level") = "⚡" ∧
    riskEmoji (sampleFailure.get "risk_level") = "✅" :=
  ⟨by decide,
    (displayResult_emoji sampleBuiltins sampleFailure exampleRequest.toData samplePage).2.2.2.2.1
      (by decide) (by decide)⟩

end FailGuard